import Mathlib

/-!
# Mental-Health-Support-System client: session state, navigation, slot booking, mood history

A shallow embedding of the React client under `src/client/src`:

* `AuthContext.js`  : the session state held by `AuthProvider` (`login`, `logout`);
* `App.js`          : the route table gated on `isAuthenticated`;
* `Therapists.js`   : the booked-slot lookup object, slot rendering and `handleBooking`;
* `MoodHistory.js`  : `moodScale`, `fetchMoods` (conversion and sorting), `filteredMoods`
                      and `deleteMood`;
* `Bookings.js`     : `fetchBookings`, `handleDelete`, `startEditing`, `cancelEditing` and
                      `saveChanges`;
* `EmergencyContact.js` : `fetchContacts`, `handleSubmit` and `handleDelete`;
* `Login.js`        : `handleLogin`;
* `MoodForm.js`     : the moods the form offers.

React state is modelled by explicit state passing; a network round trip is modelled by
passing the outcome of the request to the handler.
-/

set_option autoImplicit false

namespace MentalHealth

/-! ## JavaScript values that the session code handles -/

/-- The values `login` can be handed as a token: `undefined`, `null` or a string.
`localStorage.getItem` yields `null` or a string. -/
inductive TokenValue where
  | undefined
  | null
  | str (s : String)
  deriving DecidableEq

namespace TokenValue

/-- JavaScript truthiness (`!!v`, `if (v)`): only a non-empty string is truthy. -/
def truthy : TokenValue → Bool
  | str s => s != ""
  | _ => false

/-- The string `localStorage.setItem` stores for a value (`String(v)`). -/
def toStorageString : TokenValue → String
  | undefined => "undefined"
  | null => "null"
  | str s => s

end TokenValue

/-- The call `localStorage.getItem('token')`: `null` when the slot is absent. -/
def getItem (storage : Option String) : TokenValue :=
  match storage with
  | none => TokenValue.null
  | some s => TokenValue.str s

/-! ## AuthContext.js -/

/-- The session: the durable `localStorage` slot `'token'` (`none` when absent) and the two
`useState` cells of `AuthProvider`. -/
structure AuthState where
  storage : Option String
  authToken : TokenValue
  isAuthenticated : Bool
  deriving DecidableEq

namespace AuthProvider

/-- The two `useState` initialisers (lines 7-8). -/
def initialState (storage : Option String) : AuthState :=
  { storage := storage
    authToken := getItem storage
    isAuthenticated := (getItem storage).truthy }

/-- The mount effect (lines 22-28). -/
def mountEffect (s : AuthState) : AuthState :=
  let storedToken := getItem s.storage
  if storedToken.truthy then
    { s with authToken := storedToken, isAuthenticated := true }
  else s

/-- The provider `AuthProvider` after its first render and mount effect, over any storage
content. -/
def init (storage : Option String) : AuthState :=
  mountEffect (initialState storage)

/-- The mutator `login(token)` (lines 10-14). -/
def login (s : AuthState) (token : TokenValue) : AuthState :=
  { s with
    storage := some token.toStorageString
    authToken := token
    isAuthenticated := true }

/-- The mutator `logout()` (lines 16-20). -/
def logout (s : AuthState) : AuthState :=
  { s with
    storage := none
    authToken := TokenValue.null
    isAuthenticated := false }

end AuthProvider

/-- A call of one of the two mutators the provider exposes. -/
inductive AuthAction where
  | login (token : TokenValue)
  | logout
  deriving DecidableEq

/-- One mutator call. -/
def AuthState.step (s : AuthState) : AuthAction → AuthState
  | AuthAction.login token => AuthProvider.login s token
  | AuthAction.logout => AuthProvider.logout s

/-- The state reached from initialisation over `storage` by a sequence of mutator calls. -/
def runSession (storage : Option String) (acts : List AuthAction) : AuthState :=
  acts.foldl AuthState.step (AuthProvider.init storage)

/-- The held token is present and non-empty. -/
def AuthState.tokenPresent (s : AuthState) : Bool :=
  s.authToken.truthy

/-- The action is `logout`, or a `login` with a non-empty string token. -/
def AuthAction.tokenNonEmpty : AuthAction → Bool
  | AuthAction.login token => token.truthy
  | AuthAction.logout => true

/-! ## App.js: the route table -/

/-- The views that `App` mounts under `<Routes>`. -/
inductive View where
  | Home | Login | Register
  | MoodForm | MoodHistory | Therapists | Bookings | Resources | EmergencyContacts
  deriving DecidableEq

/-- The `<Route>` elements that are always children of `<Routes>` (lines 76-90). -/
def publicRoutes : List (String × View) :=
  [("/", View.Home), ("/login", View.Login), ("/register", View.Register)]

/-- The `<Route>` elements inside `isAuthenticated && (...)` (lines 91-100). -/
def gatedRoutes : List (String × View) :=
  [("/mood", View.MoodForm), ("/mood-history", View.MoodHistory),
   ("/therapists", View.Therapists), ("/bookings", View.Bookings),
   ("/resources", View.Resources), ("/emergency-contacts", View.EmergencyContacts)]

/-- The children of `<Routes>` for a value of `isAuthenticated`. -/
def routes (isAuthenticated : Bool) : List (String × View) :=
  publicRoutes ++ (if isAuthenticated then gatedRoutes else [])

/-- The paths of the route table. -/
def routePaths (isAuthenticated : Bool) : List String :=
  (routes isAuthenticated).map Prod.fst

/-- The view a location resolves to: the element of the first route whose path is the
location, `none` when no route has it. (All paths are static; only the exact spelling of a
path is modelled.) -/
def resolve (isAuthenticated : Bool) (path : String) : Option View :=
  (routes isAuthenticated).lookup path

/-! ## Plain objects used as lookup tables -/

/-- The property names that every plain object (`{}` or an object literal) inherits from
`Object.prototype`. Each of them holds a function, or for `__proto__` the prototype object
itself: a truthy value. -/
def objectPrototypeKeys : List String :=
  ["constructor", "__defineGetter__", "__defineSetter__", "hasOwnProperty",
   "__lookupGetter__", "__lookupSetter__", "isPrototypeOf", "propertyIsEnumerable",
   "toString", "valueOf", "__proto__", "toLocaleString"]

/-! ## Therapists.js -/

/-- The template literal `${therapistId}_${day}_${slot}` (lines 40, 66, 160). The three parts
are the string forms of the interpolated values. -/
def compositeKey (therapistId day slot : String) : String :=
  therapistId ++ "_" ++ day ++ "_" ++ slot

/-- The state cell `bookedSlots`: a plain object whose own properties all hold `true`,
given by the list of its own property names. -/
structure BookedSlots where
  own : List String
  deriving DecidableEq

namespace BookedSlots

/-- The object literal `{}` (lines 7, 37). -/
def empty : BookedSlots := ⟨[]⟩

/-- The statement `booked[key] = true` (line 40). Assigning a primitive to `__proto__` runs
the inherited setter, which ignores it; any other key becomes an own property. -/
def assign (booked : BookedSlots) (key : String) : BookedSlots :=
  if key = "__proto__" then booked else ⟨key :: booked.own⟩

/-- The object literal `{ ...prev, [key]: true }` (line 87): the own properties of `prev`
and the computed key, defined as an own property. -/
def spreadWith (prev : BookedSlots) (key : String) : BookedSlots :=
  ⟨key :: prev.own⟩

/-- Whether `bookedSlots[key]` is truthy (lines 67, 161): the key is an own property, or the
lookup falls through to a property inherited from `Object.prototype`. This is also the value
of `key in bookedSlots`. -/
def has (booked : BookedSlots) (key : String) : Bool :=
  booked.own.contains key || objectPrototypeKeys.contains key

end BookedSlots

/-- An entry of the `/api/bookings` response, with the string forms of the three fields that
the key is built from. -/
structure BookingRecord where
  therapist_id : String
  day : String
  slot : String
  deriving DecidableEq

/-- An entry of `therapist.availability`. -/
structure Availability where
  day : String
  slots : List String
  deriving DecidableEq

/-- An entry of the `/api/therapists` response: the fields the slot list is rendered from. -/
structure Therapist where
  id : String
  name : String
  availability : List Availability
  deriving DecidableEq

/-- The state of the `Therapists` component (lines 6-11). `selectedDays` is a plain object
from therapist id to day, given by its own properties, latest first. -/
structure TherapistsState where
  therapists : List Therapist
  bookedSlots : BookedSlots
  selectedDays : List (String × String)
  popupMessage : String
  popupType : String
  loading : Bool
  deriving DecidableEq

/-- The `useState` initial values. -/
def TherapistsState.initial : TherapistsState :=
  { therapists := []
    bookedSlots := BookedSlots.empty
    selectedDays := []
    popupMessage := ""
    popupType := "success"
    loading := false }

/-- The outcome of a GET of a collection: the parsed body of an OK response, or a failure
(network error, non-OK status, or a body that is not JSON). -/
inductive FetchOutcome (α : Type) where
  | ok (data : α)
  | failed

/-- The booked set that the `.then` callback of `fetchUserBookings` builds (lines 37-41). -/
def deriveBooked (data : List BookingRecord) : BookedSlots :=
  data.foldl (fun booked b => booked.assign (compositeKey b.therapist_id b.day b.slot))
    BookedSlots.empty

/-- The function `fetchUserBookings` (lines 28-49), given the outcome of its GET. -/
def fetchUserBookings (s : TherapistsState) (outcome : FetchOutcome (List BookingRecord)) :
    TherapistsState :=
  match outcome with
  | FetchOutcome.ok data => { s with bookedSlots := deriveBooked data }
  | FetchOutcome.failed =>
    { s with popupType := "error", popupMessage := "Failed to load your bookings." }

/-- The function `handleDayChange` (lines 55-57). -/
def handleDayChange (s : TherapistsState) (therapistId day : String) : TherapistsState :=
  { s with selectedDays := (therapistId, day) :: s.selectedDays }

/-- The value of `selectedDays[therapist.id]`. -/
inductive Selected where
  | undefined
  | day (d : String)
  | inherited (name : String)
  deriving DecidableEq

/-- The lookup `selectedDays[therapistId]`: the own property when there is one, else a
property inherited from `Object.prototype`, else `undefined`. -/
def selectedDay (selectedDays : List (String × String)) (therapistId : String) : Selected :=
  match selectedDays.lookup therapistId with
  | some d => Selected.day d
  | none =>
    if objectPrototypeKeys.contains therapistId then Selected.inherited therapistId
    else Selected.undefined

/-- One rendered `<div className="slot ...">` (lines 163-181); `bookAction` tells whether
the "Book" button is rendered, `bookDisabled` is its `disabled` attribute. -/
structure RenderedSlot where
  slot : String
  className : String
  title : String
  bookAction : Bool
  bookDisabled : Bool
  deriving DecidableEq

/-- The slots listed for a day: `therapist.availability.find(a => a.day === day)?.slots || []`
(line 157). -/
def slotsOfDay (therapist : Therapist) (day : String) : List String :=
  match therapist.availability.find? (fun a => a.day == day) with
  | some a => a.slots
  | none => []

/-- The slot list rendered for one therapist (lines 155-184). An inherited value is truthy but
is the `day` of no availability entry, so nothing is rendered for it. -/
def renderSlots (s : TherapistsState) (therapist : Therapist) : List RenderedSlot :=
  match selectedDay s.selectedDays therapist.id with
  | Selected.day d =>
    if d = "" then []
    else
      (slotsOfDay therapist d).map fun slot =>
        let key := compositeKey therapist.id d slot
        let isBooked := s.bookedSlots.has key
        { slot := slot
          className := if isBooked then "slot booked" else "slot available"
          title := if isBooked then "Already booked" else "Available"
          bookAction := !isBooked
          bookDisabled := s.loading }
  | Selected.inherited _ => []
  | Selected.undefined => []

/-- A request that a view sends to the backend. -/
inductive Request where
  | getBookings
  | postBooking (therapistId day slot : String)
  | putBooking (bookingId : Nat) (day slot : String)
  | deleteBooking (bookingId : Nat)
  | getMoods
  | deleteMood (id : Nat)
  | getContacts
  | postContact (name phone email relationship : String)
  | deleteContact (id : Nat)
  | postLogin (email password : String)
  deriving DecidableEq

/-- A parsed JSON body as far as `data.error` reads it: `null`, on which the property access
throws, or any other value with its `error` field (`none` when it has none). -/
inductive JsonBody where
  | null
  | value (error : Option String)
  deriving DecidableEq

/-- The outcome of the POST: `fetch` rejects, or it resolves with a status (`ok`) and a body
(`none` when `res.json()` rejects because the body is not JSON). -/
inductive PostOutcome where
  | networkError
  | response (ok : Bool) (body : Option JsonBody)
  deriving DecidableEq

/-- The part of `handleBooking` after the request was sent (lines 84-100), before `finally`. -/
def handleBookingResponse (s : TherapistsState) (key day slot : String) :
    PostOutcome → TherapistsState
  | PostOutcome.response true (some _) =>
    { s with
      bookedSlots := s.bookedSlots.spreadWith key
      popupType := "success"
      popupMessage := "Successfully booked " ++ day ++ " at " ++ slot ++ "!" }
  | PostOutcome.response false (some (JsonBody.value error)) =>
    { s with
      popupType := "error"
      popupMessage :=
        match error with
        | some msg => if msg = "" then "Booking failed." else msg
        | none => "Booking failed." }
  | _ => { s with popupType := "error", popupMessage := "Network error. Please try again." }

/-- The handler `handleBooking` (lines 59-101), given the outcome its POST would have: the
state after the handler has finished and the requests it sent, in order. -/
def handleBooking (s : TherapistsState) (therapistId day slot : String) (net : PostOutcome) :
    TherapistsState × List Request :=
  if day = "" then
    ({ s with popupType := "error", popupMessage := "Please select a day first!" }, [])
  else
    let key := compositeKey therapistId day slot
    if s.bookedSlots.has key then
      ({ s with popupType := "error", popupMessage := "This slot is already booked!" }, [])
    else
      let pending := { s with loading := true }
      let settled := handleBookingResponse pending key day slot net
      ({ settled with loading := false }, [Request.postBooking therapistId day slot])

/-- The string contains no underscore. -/
def noUnderscore (s : String) : Prop := '_' ∉ s.data

instance (s : String) : Decidable (noUnderscore s) := by
  unfold noUnderscore; infer_instance

/-- The shape shared by all inherited property names: no underscore at all, or two leading
underscores. -/
def inheritedShape (cs : List Char) : Bool :=
  (cs.head? == some '_' && cs.tail.head? == some '_') || !cs.contains '_'

/-! ## Dates -/

/-- The decimal value of a digit character. -/
def digitValue (c : Char) : Option Nat :=
  if c.isDigit then some (c.toNat - 48) else none

/-- The number written by a list of digit characters. -/
def digitsValue (cs : List Char) : Option Nat :=
  cs.foldl (fun acc c => do
    let n ← acc
    let d ← digitValue c
    pure (10 * n + d)) (some 0)

/-- Days in a month of the proleptic Gregorian calendar. -/
def daysInMonth (year month : Nat) : Nat :=
  if month = 2 then
    if year % 4 = 0 ∧ (year % 100 ≠ 0 ∨ year % 400 = 0) then 29 else 28
  else if month = 4 ∨ month = 6 ∨ month = 9 ∨ month = 11 then 30
  else 31

/-- Days from 1970-01-01 to the given civil date (proleptic Gregorian calendar). -/
def daysFromCivil (year month day : Nat) : Int :=
  let y : Int := if month ≤ 2 then (year : Int) - 1 else (year : Int)
  let era : Int := y / 400
  let yoe : Int := y - era * 400
  let mp : Int := if month ≤ 2 then (month : Int) + 9 else (month : Int) - 3
  let doy : Int := (153 * mp + 2) / 5 + (day : Int) - 1
  let doe : Int := yoe * 365 + yoe / 4 - yoe / 100 + doy
  era * 146097 + doe - 719468

/-- Milliseconds in a day. -/
def msPerDay : Int := 86400000

/-- The time value of a calendar date at 00:00 UTC, `none` when the date does not exist. -/
def civilTime (y m d : Nat) : Option Int :=
  if 1 ≤ m ∧ m ≤ 12 ∧ 1 ≤ d ∧ d ≤ daysInMonth y m then
    some (daysFromCivil y m d * msPerDay)
  else none

/-- The value of `new Date(s).getTime()` on two forms of the ECMAScript date-time string
format: the date-only form `YYYY-MM-DD` (the value of an `<input type="date">`), which is UTC
midnight of that day, and the UTC form `YYYY-MM-DDTHH:mm:ssZ`. `none` is `NaN`, as for the
empty string that an empty date input holds. How other strings parse is left to the
implementation; the general results below hold for every parser, and this one is applied
only to strings of the two forms. -/
def isoTime (s : String) : Option Int :=
  match s.data with
  | [y1, y2, y3, y4, a, m1, m2, b, d1, d2] =>
    if a = '-' ∧ b = '-' then do
      let y ← digitsValue [y1, y2, y3, y4]
      let m ← digitsValue [m1, m2]
      let d ← digitsValue [d1, d2]
      civilTime y m d
    else none
  | [y1, y2, y3, y4, a, m1, m2, b, d1, d2, t, h1, h2, c, n1, n2, e, s1, s2, z] =>
    if a = '-' ∧ b = '-' ∧ t = 'T' ∧ c = ':' ∧ e = ':' ∧ z = 'Z' then do
      let y ← digitsValue [y1, y2, y3, y4]
      let m ← digitsValue [m1, m2]
      let d ← digitsValue [d1, d2]
      let hh ← digitsValue [h1, h2]
      let mm ← digitsValue [n1, n2]
      let ss ← digitsValue [s1, s2]
      let midnight ← civilTime y m d
      if (hh < 24 ∧ mm < 60 ∧ ss < 60) ∨ (hh = 24 ∧ mm = 0 ∧ ss = 0) then
        some (midnight + ((hh * 3600 + mm * 60 + ss : Nat) : Int) * 1000)
      else none
    else none
  | _ => none

/-! ## MoodHistory.js -/

/-- The own properties of the object `moodScale` (lines 11-17). -/
def moodScale : List (String × Nat) :=
  [("angry", 1), ("sad", 2), ("neutral", 3), ("good", 4), ("happy", 5)]

/-- The value stored in `moodValue`: a number, or the function or object found under a
property name that `moodScale` inherits from `Object.prototype`. -/
inductive MoodValue where
  | num (n : Nat)
  | inherited (name : String)
  deriving DecidableEq

/-- The expression `moodScale[key] || 0` (line 88): an own property gives its number (for
which `n || 0` is `n`), an inherited property gives its truthy value, and `undefined`
gives 0. -/
def moodScaleOrZero (key : String) : MoodValue :=
  match moodScale.lookup key with
  | some n => MoodValue.num n
  | none =>
    if objectPrototypeKeys.contains key then MoodValue.inherited key else MoodValue.num 0

/-- The method `toLowerCase()` on the letters A-Z. (A letter outside ASCII never lowercases
to a letter of a key of `moodScale`, so the lookup does not depend on how such letters are
treated.) -/
def toLowerCase (s : String) : String :=
  ⟨s.data.map Char.toLower⟩

/-- An entry of the `/api/moods` response. `timestamp` and `date` are `none` when the field
is absent. -/
structure MoodRecord where
  id : Nat
  mood : String
  note : Option String
  timestamp : Option String
  date : Option String
  deriving DecidableEq

/-- An entry of the state cell `moods`: the fields spread from the response entry, with
`moodValue` and the numeric `date` set by `fetchMoods`. -/
structure MoodEntry where
  id : Nat
  mood : String
  note : Option String
  timestamp : Option String
  moodValue : MoodValue
  date : Int
  deriving DecidableEq

/-- The value of `new Date(mood.timestamp || mood.date).getTime()` (line 85), `none` for `NaN`;
`parseDate` is `new Date(string).getTime()`. An absent or empty `timestamp` is falsy, and
`new Date(undefined)` is an invalid date. -/
def parsedTime (parseDate : String → Option Int) (r : MoodRecord) : Option Int :=
  match r.timestamp with
  | some ts =>
    if ts = "" then
      match r.date with
      | some d => parseDate d
      | none => none
    else parseDate ts
  | none =>
    match r.date with
    | some d => parseDate d
    | none => none

/-- The expression `parsedDate.getTime() || Date.now()` (line 89): `NaN` and 0 are falsy. -/
def timeOrNow (t : Option Int) (now : Int) : Int :=
  match t with
  | some v => if v = 0 then now else v
  | none => now

/-- The callback of `response.data.map` (lines 84-91); `now` is what `Date.now()` returns
if it is called for this entry. -/
def convertMood (parseDate : String → Option Int) (now : Int) (r : MoodRecord) : MoodEntry :=
  { id := r.id
    mood := r.mood
    note := r.note
    timestamp := r.timestamp
    moodValue := moodScaleOrZero (toLowerCase r.mood)
    date := timeOrNow (parsedTime parseDate r) now }

/-- The array `converted`: entry `i` of the response is converted with the clock reading
`clock i`. -/
def convertFrom (parseDate : String → Option Int) (clock : Nat → Int) :
    Nat → List MoodRecord → List MoodEntry
  | _, [] => []
  | i, r :: rs => convertMood parseDate (clock i) r :: convertFrom parseDate clock (i + 1) rs

/-- The order the comparator `(a, b) => a.date - b.date` sorts by. -/
def dateLe (a b : MoodEntry) : Prop := a.date ≤ b.date

instance : DecidableRel dateLe := fun a b => by
  unfold dateLe; infer_instance

/-- The time that the `timestamp` field of a stored entry denotes, `none` when the field is
absent or is not a date. -/
def timestampTime (parseDate : String → Option Int) (e : MoodEntry) : Option Int :=
  match e.timestamp with
  | some ts => parseDate ts
  | none => none

instance : IsTotal MoodEntry dateLe := ⟨fun a b => le_total a.date b.date⟩

instance : IsTrans MoodEntry dateLe := ⟨fun _ _ _ hab hbc => le_trans hab hbc⟩

/-- The keys of `moodScale`. -/
def moodScaleKeys : List String := moodScale.map Prod.fst

/-- The call `converted.sort((a, b) => a.date - b.date)` (line 93): a stable sort, ascending
by `date`. -/
def sortByDate (converted : List MoodEntry) : List MoodEntry :=
  converted.insertionSort dateLe

/-- The state of the `MoodHistory` component (lines 71-75). -/
structure MoodHistoryState where
  moods : List MoodEntry
  loading : Bool
  dateFrom : String
  dateTo : String
  openIndex : Option Nat
  deriving DecidableEq

/-- The `useState` initial values. -/
def MoodHistoryState.initial : MoodHistoryState :=
  { moods := [], loading := true, dateFrom := "", dateTo := "", openIndex := none }

/-- The function `fetchMoods` (lines 77-100), given the outcome of its GET. -/
def fetchMoods (parseDate : String → Option Int) (clock : Nat → Int) (s : MoodHistoryState)
    (outcome : FetchOutcome (List MoodRecord)) : MoodHistoryState :=
  match outcome with
  | FetchOutcome.ok data =>
    { s with moods := sortByDate (convertFrom parseDate clock 0 data), loading := false }
  | FetchOutcome.failed => { s with loading := false }

/-- The comparison `x < t` of a number with a time value, false when `t` is `NaN`. -/
def ltTime (x : Int) (t : Option Int) : Bool :=
  match t with
  | some v => decide (x < v)
  | none => false

/-- The comparison `x > t` of a number with a time value, false when `t` is `NaN`. -/
def gtTime (x : Int) (t : Option Int) : Bool :=
  match t with
  | some v => decide (x > v)
  | none => false

/-- The callback of the filter in `filteredMoods` (lines 122-127). -/
def inDateRange (parseDate : String → Option Int) (dateFrom dateTo : String)
    (mood : MoodEntry) : Bool :=
  if dateFrom = "" ∧ dateTo = "" then true
  else if dateFrom ≠ "" ∧ ltTime mood.date (parseDate dateFrom) = true then false
  else if dateTo ≠ "" ∧ gtTime mood.date (parseDate dateTo) = true then false
  else true

/-- The memoised value `filteredMoods` (lines 121-128). -/
def filteredMoods (parseDate : String → Option Int) (s : MoodHistoryState) : List MoodEntry :=
  s.moods.filter (inDateRange parseDate s.dateFrom s.dateTo)

/-- The UTC calendar day, counted from 1970-01-01, that a time value falls on. -/
def utcDay (t : Int) : Int := t / msPerDay

/-! ## Requests, prompts and alerts of the list views -/

/-- What a handler does besides updating state: the requests it sends, the `window.confirm`
prompts it shows and the `window.alert` messages it raises, each in order. -/
structure Effects where
  requests : List Request
  prompts : List String
  alerts : List String
  deriving DecidableEq

/-- A handler run that sent nothing and showed nothing. -/
def Effects.none : Effects := { requests := [], prompts := [], alerts := [] }

/-- A parsed JSON body where the code expects a collection: an array of entries, or any other
JSON value (given by its text). -/
inductive Body (α : Type) where
  | array (items : List α)
  | other (json : String)
  deriving DecidableEq

/-- The outcome of a request: `fetch` rejects (network error), or it resolves with a status
(`ok`) and a body (`none` when the body is not JSON, so that `res.json()` rejects). -/
inductive HttpOutcome (β : Type) where
  | networkError
  | response (ok : Bool) (body : Option β)
  deriving DecidableEq

/-- Whether the request succeeded: it reached the server and the status is OK. An `axios`
call resolves exactly then and rejects otherwise; a `fetch` call resolves for every status,
and the handlers read `res.ok`. -/
def HttpOutcome.resolved {β : Type} : HttpOutcome β → Bool
  | HttpOutcome.response true _ => true
  | _ => false

/-- The requests that `AuthProvider` sends while it initialises (lines 7-8 and 22-28): none,
the initialisers and the mount effect only read `localStorage`. -/
def AuthProvider.initRequests (_storage : Option String) : List Request := []

/-! ## MoodHistory.js: deleteMood -/

/-- The function `deleteMood` (lines 106-119), given the answer to its confirmation prompt and
the outcome of its `axios.delete`. -/
def deleteMood (s : MoodHistoryState) (id : Nat) (confirmed : Bool)
    (del : HttpOutcome JsonBody) : MoodHistoryState × Effects :=
  let prompt := "Are you sure you want to delete this mood entry?"
  if confirmed then
    if del.resolved then
      ({ s with moods := s.moods.filter (fun entry => entry.id != id) },
        { requests := [Request.deleteMood id], prompts := [prompt], alerts := [] })
    else
      (s, { requests := [Request.deleteMood id], prompts := [prompt],
            alerts := ["Failed to delete mood entry."] })
  else
    (s, { requests := [], prompts := [prompt], alerts := [] })

/-! ## Bookings.js -/

/-- An entry of the `/api/bookings` response as the `Bookings` view reads it. -/
structure Booking where
  id : Nat
  therapist : String
  day : String
  slot : String
  deriving DecidableEq

/-- The state of the `Bookings` component (lines 6-13). -/
structure BookingsState where
  bookings : List Booking
  editingId : Option Nat
  editedDay : String
  editedSlot : String
  loading : Bool
  loadingBookings : Bool
  errorMsg : String
  successMsg : String
  deriving DecidableEq

/-- The `useState` initial values. -/
def BookingsState.initial : BookingsState :=
  { bookings := [], editingId := none, editedDay := "", editedSlot := "", loading := false,
    loadingBookings := false, errorMsg := "", successMsg := "" }

/-- The function `fetchBookings` (lines 15-41), given the outcome of its GET: only an OK
response whose body is an array replaces the list. -/
def fetchBookings (s : BookingsState) (get : HttpOutcome (Body Booking)) : BookingsState :=
  let started := { s with loadingBookings := true }
  let settled :=
    match get with
    | HttpOutcome.response true (some (Body.array data)) =>
      { started with bookings := data, errorMsg := "" }
    | _ => { started with errorMsg := "Failed to load bookings.", successMsg := "" }
  { settled with loadingBookings := false }

/-- The handler `handleDelete` of `Bookings` (lines 47-68), given the answer to its
confirmation prompt, the outcome of the DELETE and the outcome of the re-fetch that follows
an OK status. -/
def Bookings.handleDelete (s : BookingsState) (bookingId : Nat) (confirmed : Bool)
    (del : HttpOutcome JsonBody) (refetch : HttpOutcome (Body Booking)) :
    BookingsState × Effects :=
  let prompt := "Are you sure you want to cancel this booking?"
  if confirmed then
    let pending := { s with loading := true }
    match del with
    | HttpOutcome.response true _ =>
      let done := { pending with
        successMsg := "Booking cancelled successfully.", errorMsg := "", loading := false }
      (fetchBookings done refetch,
        { requests := [Request.deleteBooking bookingId, Request.getBookings],
          prompts := [prompt], alerts := [] })
    | HttpOutcome.response false _ =>
      ({ pending with errorMsg := "Failed to cancel booking.", successMsg := "", loading := false },
        { requests := [Request.deleteBooking bookingId], prompts := [prompt], alerts := [] })
    | HttpOutcome.networkError =>
      ({ pending with errorMsg := "Network error.", successMsg := "", loading := false },
        { requests := [Request.deleteBooking bookingId], prompts := [prompt], alerts := [] })
  else
    (s, { requests := [], prompts := [prompt], alerts := [] })

/-- The function `startEditing` (lines 70-76). -/
def startEditing (s : BookingsState) (booking : Booking) : BookingsState :=
  { s with editingId := some booking.id, editedDay := booking.day, editedSlot := booking.slot,
           errorMsg := "", successMsg := "" }

/-- The function `cancelEditing` (lines 78-82). -/
def cancelEditing (s : BookingsState) : BookingsState :=
  { s with editingId := none, errorMsg := "", successMsg := "" }

/-- The characters that `String.prototype.trim` strips: the WhiteSpace and LineTerminator
code points of ECMAScript. -/
def isWhiteSpace (c : Char) : Bool :=
  [0x9, 0xA, 0xB, 0xC, 0xD, 0x20, 0xA0, 0x1680, 0x2028, 0x2029, 0x202F, 0x205F, 0x3000,
    0xFEFF].contains c.toNat || (0x2000 ≤ c.toNat && c.toNat ≤ 0x200A)

/-- The method `trim()`: the string without its leading and trailing white space. -/
def trim (s : String) : String :=
  ⟨((s.data.dropWhile isWhiteSpace).reverse.dropWhile isWhiteSpace).reverse⟩

/-- The string is empty or holds white space only. -/
def isBlank (s : String) : Bool :=
  s.data.all isWhiteSpace

/-- The part of `saveChanges` after the PUT was sent (lines 100-114); `refetch` is the
outcome of the `fetchBookings` call that follows an OK status. -/
def saveChangesResponse (s : BookingsState) (put : HttpOutcome JsonBody)
    (refetch : HttpOutcome (Body Booking)) : BookingsState × List Request :=
  match put with
  | HttpOutcome.response true _ =>
    let done := { s with
      successMsg := "Booking updated successfully.", errorMsg := "", editingId := none,
      loading := false }
    (fetchBookings done refetch, [Request.getBookings])
  | HttpOutcome.response false (some (JsonBody.value error)) =>
    ({ s with
        errorMsg :=
          match error with
          | some msg => if msg = "" then "Failed to update booking." else msg
          | none => "Failed to update booking."
        successMsg := ""
        loading := false }, [])
  | _ => ({ s with errorMsg := "Network error.", successMsg := "", loading := false }, [])

/-- The handler `saveChanges` (lines 84-115), given the outcome its PUT would have and the
outcome of the re-fetch that follows an OK status. -/
def saveChanges (s : BookingsState) (bookingId : Nat) (put : HttpOutcome JsonBody)
    (refetch : HttpOutcome (Body Booking)) : BookingsState × Effects :=
  if trim s.editedDay = "" ∨ trim s.editedSlot = "" then
    ({ s with errorMsg := "Day and Slot cannot be empty.", successMsg := "" }, Effects.none)
  else
    let pending := { s with loading := true }
    let settled := saveChangesResponse pending put refetch
    (settled.1,
      { requests :=
          Request.putBooking bookingId (trim s.editedDay) (trim s.editedSlot) :: settled.2
        prompts := [], alerts := [] })

/-! ## EmergencyContact.js -/

/-- An entry of the `/api/emergency-contacts` response. -/
structure Contact where
  id : Nat
  name : String
  phone : String
  email : String
  relationship : String
  deriving DecidableEq

/-- The state cell `form` (line 7). -/
structure ContactForm where
  name : String
  phone : String
  email : String
  relationship : String
  deriving DecidableEq

/-- The object `{ name: "", phone: "", email: "", relationship: "" }` (lines 7, 47). -/
def ContactForm.empty : ContactForm :=
  { name := "", phone := "", email := "", relationship := "" }

/-- The state of the `EmergencyContacts` component (lines 4-7). `contacts` holds whatever
body `setContacts` was handed: the code does not check that it is an array. -/
structure ContactsState where
  contacts : Body Contact
  loading : Bool
  error : Option String
  form : ContactForm
  deriving DecidableEq

/-- The `useState` initial values. -/
def ContactsState.initial : ContactsState :=
  { contacts := Body.array [], loading := true, error := none, form := ContactForm.empty }

/-- The function `fetchContacts` of the mount effect (lines 13-27), given the outcome of its
GET. -/
def fetchContacts (s : ContactsState) (get : HttpOutcome (Body Contact)) : ContactsState :=
  match get with
  | HttpOutcome.response true (some data) => { s with contacts := data, loading := false }
  | _ => { s with error := some "Failed to load contacts", loading := false }

/-- The re-fetch written out in `handleSubmit` (lines 49-53) and `handleDelete` (lines 68-72):
the status of the response is not read; `failure` is the message of the enclosing `catch`. -/
def refetchContacts (s : ContactsState) (failure : String)
    (get : HttpOutcome (Body Contact)) : ContactsState :=
  match get with
  | HttpOutcome.response _ (some data) => { s with contacts := data }
  | _ => { s with error := some failure }

/-- The handler `handleSubmit` (lines 36-58), given the outcome of its POST and the outcome
of the GET that follows. -/
def handleSubmit (s : ContactsState) (post : HttpOutcome (Body Contact))
    (refetch : HttpOutcome (Body Contact)) : ContactsState × Effects :=
  let posted := Request.postContact s.form.name s.form.phone s.form.email s.form.relationship
  match post with
  | HttpOutcome.response true (some _) =>
    (refetchContacts { s with form := ContactForm.empty } "Failed to add contact" refetch,
      { requests := [posted, Request.getContacts], prompts := [], alerts := [] })
  | _ =>
    ({ s with error := some "Failed to add contact" },
      { requests := [posted], prompts := [], alerts := [] })

/-- The handler `handleDelete` of `EmergencyContacts` (lines 60-77), given the outcome of its
DELETE and the outcome of the GET that follows. It shows no prompt. -/
def EmergencyContacts.handleDelete (s : ContactsState) (id : Nat)
    (del : HttpOutcome JsonBody) (refetch : HttpOutcome (Body Contact)) :
    ContactsState × Effects :=
  match del with
  | HttpOutcome.response true _ =>
    (refetchContacts s "Failed to delete contact" refetch,
      { requests := [Request.deleteContact id, Request.getContacts], prompts := [],
        alerts := [] })
  | _ =>
    ({ s with error := some "Failed to delete contact" },
      { requests := [Request.deleteContact id], prompts := [], alerts := [] })

/-- The constraint validation that the browser runs before it dispatches `submit` to the
form (lines 86-122): the `required` inputs `name` and `phone` must not be empty, and a
non-empty `email` must be a valid address (`validEmail` is that check of the browser). -/
def formIsValid (validEmail : String → Bool) (form : ContactForm) : Bool :=
  form.name != "" && form.phone != "" && (form.email == "" || validEmail form.email)

/-- A press of the "Add Contact" button: `handleSubmit` runs only when the form passes
constraint validation. -/
def submitContactForm (validEmail : String → Bool) (s : ContactsState)
    (post : HttpOutcome (Body Contact)) (refetch : HttpOutcome (Body Contact)) :
    ContactsState × Effects :=
  if formIsValid validEmail s.form then handleSubmit s post refetch else (s, Effects.none)

/-! ## Login.js -/

/-- The state of the `Login` component that `handleLogin` reads and writes (lines 7-11). -/
structure LoginState where
  email : String
  password : String
  error : String
  loading : Bool
  deriving DecidableEq

/-- The `useState` initial values. -/
def LoginState.initial : LoginState :=
  { email := "", password := "", error := "", loading := false }

/-- A parsed JSON body of the `/login` response as far as `handleLogin` reads it: `null`, on
which a property access throws, or any other value with its `msg` field (`none` when it has
none) and its `access_token` field. -/
inductive LoginBody where
  | null
  | value (msg : Option String) (access_token : TokenValue)
  deriving DecidableEq

/-- What a run of `handleLogin` leaves behind: the component state, the session, the request
sent, the alerts raised and the locations navigated to. -/
structure LoginResult where
  login : LoginState
  session : AuthState
  requests : List Request
  alerts : List String
  navigations : List String
  deriving DecidableEq

/-- The handler `handleLogin` (lines 21-47), given the outcome of its POST. -/
def handleLogin (s : LoginState) (session : AuthState) (net : HttpOutcome LoginBody) :
    LoginResult :=
  let pending := { s with error := "", loading := true }
  let sent := [Request.postLogin s.email s.password]
  match net with
  | HttpOutcome.response true (some (LoginBody.value _ token)) =>
    { login := { pending with loading := false }
      session := AuthProvider.login session token
      requests := sent
      alerts := ["Login successful!"]
      navigations := ["/"] }
  | HttpOutcome.response false (some (LoginBody.value msg _)) =>
    { login := { pending with
        error :=
          match msg with
          | some m => if m = "" then "Login failed" else m
          | none => "Login failed"
        loading := false }
      session := session
      requests := sent
      alerts := []
      navigations := [] }
  | _ =>
    { login := { pending with error := "Unable to connect to server", loading := false }
      session := session
      requests := sent
      alerts := []
      navigations := [] }

/-- The error paragraph of the login form (line 75): rendered when `error` is truthy. -/
def displayedError (s : LoginState) : Option String :=
  if s.error = "" then none else some s.error

/-! ## MoodForm.js and the chart of MoodHistory.js -/

/-- The `value` attributes of the options of the mood `<select>` (lines 135-140). -/
def moodFormOptions : List String :=
  ["", "happy", "sad", "angry", "anxious", "neutral"]

/-- The moods that the form lets a user log: the `<select>` is `required`, so the empty
option cannot be submitted. -/
def loggableMoods : List String :=
  moodFormOptions.filter (fun mood => mood != "")

/-- The `domain` of the Y axis of the mood chart (line 286). -/
def yAxisDomain : Nat × Nat := (1, 5)

/-- Whether a `moodValue` is a number inside the Y-axis domain. -/
def MoodValue.inDomain : MoodValue → Bool
  | MoodValue.num n => decide (yAxisDomain.1 ≤ n ∧ n ≤ yAxisDomain.2)
  | MoodValue.inherited _ => false

/-- The fields of a stored entry that are spread from the response entry. -/
def MoodEntry.original (e : MoodEntry) : Nat × String × Option String × Option String :=
  (e.id, e.mood, e.note, e.timestamp)

/-- The fields `id`, `mood`, `note` and `timestamp` of a response entry. -/
def MoodRecord.original (r : MoodRecord) : Nat × String × Option String × Option String :=
  (r.id, r.mood, r.note, r.timestamp)

/-! ## Controls that start a request, and the state while a request is outstanding -/

/-- The buttons of the four list views. -/
inductive ControlKind where
  | saveBooking (bookingId : Nat)
  | cancelEdit
  | editBooking (bookingId : Nat)
  | deleteBooking (bookingId : Nat)
  | book (therapistId day slot : String)
  | deleteMood (id : Nat)
  | addContact
  | deleteContact (id : Nat)
  deriving DecidableEq

/-- Whether a click on the button starts a create, update or delete request. -/
def ControlKind.mutating : ControlKind → Bool
  | ControlKind.cancelEdit => false
  | ControlKind.editBooking _ => false
  | _ => true

/-- A rendered button with its `disabled` attribute (`false` when it has none). -/
structure Control where
  kind : ControlKind
  disabled : Bool
  deriving DecidableEq

/-- The buttons of the `Bookings` view (lines 130-207). -/
def Bookings.controls (s : BookingsState) : List Control :=
  s.bookings.flatMap fun booking =>
    if s.editingId = some booking.id then
      [⟨ControlKind.saveBooking booking.id, s.loading⟩, ⟨ControlKind.cancelEdit, s.loading⟩]
    else
      [⟨ControlKind.editBooking booking.id, false⟩,
       ⟨ControlKind.deleteBooking booking.id, s.loading⟩]

/-- The state of `Bookings` while the DELETE of `handleDelete` is outstanding (line 49),
`none` when the handler returned without a request. -/
def Bookings.handleDeleteOutstanding (s : BookingsState) (confirmed : Bool) :
    Option BookingsState :=
  if confirmed then some { s with loading := true } else none

/-- The state of `Bookings` while the PUT of `saveChanges` is outstanding (line 90), `none`
when the handler returned without a request. -/
def saveChangesOutstanding (s : BookingsState) : Option BookingsState :=
  if trim s.editedDay = "" ∨ trim s.editedSlot = "" then none
  else some { s with loading := true }

/-- The "Book" buttons of one therapist (lines 170-177). -/
def Therapists.controls (s : TherapistsState) (therapist : Therapist) : List Control :=
  match selectedDay s.selectedDays therapist.id with
  | Selected.day d =>
    ((renderSlots s therapist).filter fun r => r.bookAction).map fun r =>
      ⟨ControlKind.book therapist.id d r.slot, r.bookDisabled⟩
  | Selected.inherited _ => []
  | Selected.undefined => []

/-- The state of `Therapists` while the POST of `handleBooking` is outstanding (line 73),
`none` when a guard returned without a request. -/
def handleBookingOutstanding (s : TherapistsState) (therapistId day slot : String) :
    Option TherapistsState :=
  if day = "" then none
  else if s.bookedSlots.has (compositeKey therapistId day slot) then none
  else some { s with loading := true }

/-- The entries of a list with their indices, as `Array.prototype.map` hands them to its
callback. -/
def withIndexFrom {α : Type} : Nat → List α → List (Nat × α)
  | _, [] => []
  | i, x :: xs => (i, x) :: withIndexFrom (i + 1) xs

/-- The "Delete" buttons of the `MoodHistory` view (lines 134-144, 191, 223, 239-259): the
button of the open entry of the filtered list. It has no `disabled` attribute. -/
def MoodHistory.controls (parseDate : String → Option Int) (s : MoodHistoryState) :
    List Control :=
  if s.loading then []
  else if s.moods.length = 0 then []
  else
    (withIndexFrom 0 (filteredMoods parseDate s)).flatMap fun entry =>
      if s.openIndex = some entry.1 then [⟨ControlKind.deleteMood entry.2.id, false⟩] else []

/-- The state of `MoodHistory` while the DELETE of `deleteMood` is outstanding: the handler
sets no state before the request (lines 107-113). `none` when the user declined. -/
def deleteMoodOutstanding (s : MoodHistoryState) (confirmed : Bool) :
    Option MoodHistoryState :=
  if confirmed then some s else none

/-- The buttons of the `EmergencyContacts` view (lines 79-80, 121, 125-139): "Add Contact" and
one "Delete" per contact, none with a `disabled` attribute. Nothing of it is rendered while
`loading` or `error` is set, or when `contacts` is not an array. -/
def EmergencyContacts.controls (s : ContactsState) : List Control :=
  if s.loading then []
  else if s.error.isSome then []
  else
    match s.contacts with
    | Body.array contacts =>
      ⟨ControlKind.addContact, false⟩ ::
        contacts.map fun c => ⟨ControlKind.deleteContact c.id, false⟩
    | Body.other _ => []

/-- The state of `EmergencyContacts` while the DELETE of `handleDelete` or the POST of
`handleSubmit` is outstanding: neither handler sets state before its request (lines 37-43,
61-65). -/
def EmergencyContacts.outstanding (s : ContactsState) : Option ContactsState :=
  some s

/-! ## A session of the Bookings view -/

/-- One step of the `Bookings` view: a run of one of its functions with the outcomes of its
requests, or an edit of one of the two inputs of the edit form. -/
inductive BookingsAction where
  | fetchBookings (get : HttpOutcome (Body Booking))
  | handleDelete (bookingId : Nat) (confirmed : Bool) (del : HttpOutcome JsonBody)
      (refetch : HttpOutcome (Body Booking))
  | startEditing (booking : Booking)
  | cancelEditing
  | saveChanges (bookingId : Nat) (put : HttpOutcome JsonBody)
      (refetch : HttpOutcome (Body Booking))
  | setEditedDay (value : String)
  | setEditedSlot (value : String)

/-- The state after one step. -/
def BookingsState.step (s : BookingsState) : BookingsAction → BookingsState
  | BookingsAction.fetchBookings get => fetchBookings s get
  | BookingsAction.handleDelete bookingId confirmed del refetch =>
    (Bookings.handleDelete s bookingId confirmed del refetch).1
  | BookingsAction.startEditing booking => startEditing s booking
  | BookingsAction.cancelEditing => cancelEditing s
  | BookingsAction.saveChanges bookingId put refetch => (saveChanges s bookingId put refetch).1
  | BookingsAction.setEditedDay value => { s with editedDay := value }
  | BookingsAction.setEditedSlot value => { s with editedSlot := value }

/-- The state reached from the initial state of `Bookings` by a sequence of steps. -/
def runBookings (acts : List BookingsAction) : BookingsState :=
  acts.foldl BookingsState.step BookingsState.initial

/-- The arguments of the `handleBooking` calls that the rendered "Book" buttons of one
therapist make (line 173): `(therapist.id, selectedDays[therapist.id], slot)`. -/
def bookCalls (s : TherapistsState) (therapist : Therapist) :
    List (String × String × String) :=
  match selectedDay s.selectedDays therapist.id with
  | Selected.day d =>
    ((renderSlots s therapist).filter fun r => r.bookAction).map fun r =>
      (therapist.id, d, r.slot)
  | Selected.inherited _ => []
  | Selected.undefined => []

/-! # Theorems -/

/-! ## Session state -/

theorem init_invariant (storage : Option String) :
    (AuthProvider.init storage).isAuthenticated = (AuthProvider.init storage).tokenPresent := by
  cases storage with
  | none => rfl
  | some t =>
    by_cases h : (TokenValue.str t).truthy = true
    · simp [AuthProvider.init, AuthProvider.mountEffect, AuthProvider.initialState, getItem,
        AuthState.tokenPresent, h]
    · simp [AuthProvider.init, AuthProvider.mountEffect, AuthProvider.initialState, getItem,
        AuthState.tokenPresent, h]

theorem step_invariant (s : AuthState) (a : AuthAction) (ha : a.tokenNonEmpty = true) :
    (s.step a).isAuthenticated = (s.step a).tokenPresent := by
  cases a with
  | login token =>
    simp only [AuthAction.tokenNonEmpty] at ha
    simp [AuthState.step, AuthProvider.login, AuthState.tokenPresent, ha]
  | logout => rfl

theorem foldl_step_invariant (acts : List AuthAction) :
    ∀ s : AuthState, s.isAuthenticated = s.tokenPresent →
      (∀ a ∈ acts, a.tokenNonEmpty = true) →
      (acts.foldl AuthState.step s).isAuthenticated
        = (acts.foldl AuthState.step s).tokenPresent := by
  induction acts with
  | nil => intro s hs _; simpa using hs
  | cons a rest ih =>
    intro s _ hall
    simp only [List.foldl_cons]
    exact ih (s.step a) (step_invariant s a (hall a (List.mem_cons_self a rest)))
      (fun b hb => hall b (List.mem_cons_of_mem a hb))

/-- C1 (as stated, refuted): after `login("")` on an empty storage the session has
`isAuthenticated = true` although the held token is the empty string; after
`login(undefined)` it has `isAuthenticated = true` with no token held at all. -/
theorem session_invariant_counterexample :
    ((runSession none [AuthAction.login (TokenValue.str "")]).isAuthenticated = true ∧
     (runSession none [AuthAction.login (TokenValue.str "")]).authToken = TokenValue.str "" ∧
     (runSession none [AuthAction.login (TokenValue.str "")]).tokenPresent = false) ∧
    ((runSession none [AuthAction.login TokenValue.undefined]).isAuthenticated = true ∧
     (runSession none [AuthAction.login TokenValue.undefined]).authToken
       = TokenValue.undefined ∧
     (runSession none [AuthAction.login TokenValue.undefined]).tokenPresent = false) := by
  decide

/-- C1 (amended): in every state reachable from `AuthProvider` initialisation, over any
initial storage content, by `logout()` calls and `login(token)` calls whose token is a
non-empty string, `isAuthenticated` is true if and only if the held token is present and
non-empty. -/
theorem session_invariant (storage : Option String) (acts : List AuthAction)
    (hacts : ∀ a ∈ acts, a.tokenNonEmpty = true) :
    (runSession storage acts).isAuthenticated = true ↔
      (runSession storage acts).tokenPresent = true := by
  have h := foldl_step_invariant acts (AuthProvider.init storage) (init_invariant storage) hacts
  unfold runSession
  rw [h]

theorem session_invariant_witness :
    (∀ a ∈ [AuthAction.login (TokenValue.str "abc"), AuthAction.logout,
        AuthAction.login (TokenValue.str "t2")], a.tokenNonEmpty = true) ∧
    ((runSession (some "old") [AuthAction.login (TokenValue.str "abc"), AuthAction.logout,
        AuthAction.login (TokenValue.str "t2")]).isAuthenticated = true ↔
      (runSession (some "old") [AuthAction.login (TokenValue.str "abc"), AuthAction.logout,
        AuthAction.login (TokenValue.str "t2")]).tokenPresent = true) :=
  ⟨by decide, session_invariant (some "old") _ (by decide)⟩

/-! ## Session-gated navigation -/

theorem foldl_step_storage_none (acts : List AuthAction) :
    ∀ s : AuthState, (s.storage = none → s.isAuthenticated = false) →
      (acts.foldl AuthState.step s).storage = none →
      (acts.foldl AuthState.step s).isAuthenticated = false := by
  induction acts with
  | nil => intro s hs h; exact hs h
  | cons a rest ih =>
    intro s _ h
    simp only [List.foldl_cons] at h ⊢
    refine ih (s.step a) ?_ h
    cases a with
    | login token => intro hnone; simp [AuthState.step, AuthProvider.login] at hnone
    | logout => intro _; rfl

theorem runSession_storage_none (storage : Option String) (acts : List AuthAction)
    (h : (runSession storage acts).storage = none) :
    (runSession storage acts).isAuthenticated = false := by
  refine foldl_step_storage_none acts (AuthProvider.init storage) ?_ h
  intro hnone
  cases storage with
  | none => rfl
  | some t =>
    simp only [AuthProvider.init, AuthProvider.mountEffect, AuthProvider.initialState] at hnone
    split at hnone <;> simp at hnone

/-- C2: for every session state each of `/mood`, `/mood-history`, `/therapists`, `/bookings`,
`/resources` and `/emergency-contacts` is in the route table of `App` if and only if
`isAuthenticated` is true, while `/`, `/login` and `/register` are always in it; and in every
reachable session state with no token in storage, `/bookings` resolves to no view and no
location resolves to the Bookings view. -/
theorem session_gated_navigation (s : AuthState) (storage : Option String)
    (acts : List AuthAction) :
    (("/mood" ∈ routePaths s.isAuthenticated ↔ s.isAuthenticated = true) ∧
     ("/mood-history" ∈ routePaths s.isAuthenticated ↔ s.isAuthenticated = true) ∧
     ("/therapists" ∈ routePaths s.isAuthenticated ↔ s.isAuthenticated = true) ∧
     ("/bookings" ∈ routePaths s.isAuthenticated ↔ s.isAuthenticated = true) ∧
     ("/resources" ∈ routePaths s.isAuthenticated ↔ s.isAuthenticated = true) ∧
     ("/emergency-contacts" ∈ routePaths s.isAuthenticated ↔ s.isAuthenticated = true)) ∧
    ("/" ∈ routePaths s.isAuthenticated ∧ "/login" ∈ routePaths s.isAuthenticated ∧
     "/register" ∈ routePaths s.isAuthenticated) ∧
    ((runSession storage acts).storage = none →
      resolve (runSession storage acts).isAuthenticated "/bookings" = none ∧
      ∀ path : String,
        resolve (runSession storage acts).isAuthenticated path ≠ some View.Bookings) := by
  refine ⟨?_, ?_, ?_⟩
  · cases s.isAuthenticated <;> decide
  · cases s.isAuthenticated <;> decide
  · intro h
    rw [runSession_storage_none storage acts h]
    refine ⟨by decide, ?_⟩
    intro path hp
    simp only [resolve, routes, publicRoutes, List.lookup, Bool.false_eq_true, if_false,
      List.append_nil] at hp
    split at hp <;> try simp at hp
    split at hp <;> try simp at hp
    split at hp <;> simp at hp

theorem session_gated_navigation_witness :
    (runSession (some "tok") [AuthAction.logout]).storage = none ∧
    resolve (runSession (some "tok") [AuthAction.logout]).isAuthenticated "/bookings" = none ∧
    resolve (runSession none []).isAuthenticated "/bookings" = none ∧
    resolve (runSession none [AuthAction.login (TokenValue.str "tok")]).isAuthenticated
      "/bookings" = some View.Bookings :=
  ⟨by decide,
   ((session_gated_navigation (AuthProvider.init none) (some "tok") [AuthAction.logout]).2.2
      (by decide)).1,
   by decide, by decide⟩

/-! ## The booked-slot lookup object -/

theorem BookedSlots.has_iff (booked : BookedSlots) (key : String) :
    booked.has key = true ↔ key ∈ booked.own ∨ key ∈ objectPrototypeKeys := by
  simp [BookedSlots.has]

theorem foldl_assign_own (data : List BookingRecord) (key : String) :
    ∀ acc : BookedSlots,
      key ∈ (data.foldl (fun booked b =>
          booked.assign (compositeKey b.therapist_id b.day b.slot)) acc).own ↔
        key ∈ acc.own ∨
          (key ≠ "__proto__" ∧ ∃ b ∈ data, compositeKey b.therapist_id b.day b.slot = key) := by
  induction data with
  | nil => intro acc; simp
  | cons b rest ih =>
    intro acc
    simp only [List.foldl_cons]
    rw [ih]
    by_cases hb : compositeKey b.therapist_id b.day b.slot = "__proto__"
    · simp only [BookedSlots.assign, hb, if_true, List.mem_cons, exists_eq_or_imp]
      constructor
      · rintro (h | ⟨h1, h2⟩)
        · exact Or.inl h
        · exact Or.inr ⟨h1, Or.inr h2⟩
      · rintro (h | ⟨h1, h2 | h2⟩)
        · exact Or.inl h
        · exact absurd h2.symm h1
        · exact Or.inr ⟨h1, h2⟩
    · simp only [BookedSlots.assign, hb, if_false, List.mem_cons, exists_eq_or_imp]
      constructor
      · rintro ((h | h) | ⟨h1, h2⟩)
        · exact Or.inr ⟨by rw [h]; exact hb, Or.inl h.symm⟩
        · exact Or.inl h
        · exact Or.inr ⟨h1, Or.inr h2⟩
      · rintro (h | ⟨h1, h2 | h2⟩)
        · exact Or.inl (Or.inr h)
        · exact Or.inl (Or.inl h2.symm)
        · exact Or.inr ⟨h1, h2⟩

theorem deriveBooked_has (data : List BookingRecord) (key : String) :
    (deriveBooked data).has key = true ↔
      (∃ b ∈ data, compositeKey b.therapist_id b.day b.slot = key) ∨
        key ∈ objectPrototypeKeys := by
  rw [BookedSlots.has_iff, deriveBooked, foldl_assign_own]
  simp only [BookedSlots.empty, List.not_mem_nil, false_or]
  constructor
  · rintro (⟨_, h⟩ | h)
    · exact Or.inl h
    · exact Or.inr h
  · rintro (h | h)
    · by_cases hk : key = "__proto__"
      · right; rw [hk]; decide
      · exact Or.inl ⟨hk, h⟩
    · exact Or.inr h

/-! ## Composite keys -/

theorem compositeKey_data (t d s : String) :
    (compositeKey t d s).data = t.data ++ '_' :: (d.data ++ '_' :: s.data) := by
  simp [compositeKey, String.data_append]

theorem split_at_underscore (a : List Char) :
    ∀ (b x y : List Char), '_' ∉ a → '_' ∉ b → a ++ '_' :: x = b ++ '_' :: y →
      a = b ∧ x = y := by
  induction a with
  | nil =>
    intro b x y _ hb h
    cases b with
    | nil => simpa using h
    | cons c cs =>
      simp only [List.nil_append, List.cons_append, List.cons.injEq] at h
      exact absurd (h.1 ▸ List.mem_cons_self _ _) hb
  | cons c cs ih =>
    intro b x y ha hb h
    cases b with
    | nil =>
      simp only [List.nil_append, List.cons_append, List.cons.injEq] at h
      exact absurd (h.1 ▸ List.mem_cons_self _ _) ha
    | cons c2 cs2 =>
      simp only [List.cons_append, List.cons.injEq] at h
      have hrec := ih cs2 x y (fun hm => ha (List.mem_cons_of_mem _ hm))
        (fun hm => hb (List.mem_cons_of_mem _ hm)) h.2
      exact ⟨by rw [h.1, hrec.1], hrec.2⟩

theorem compositeKey_injective (t d s t2 d2 s2 : String)
    (ht : noUnderscore t) (hd : noUnderscore d) (ht2 : noUnderscore t2) (hd2 : noUnderscore d2)
    (h : compositeKey t d s = compositeKey t2 d2 s2) :
    t = t2 ∧ d = d2 ∧ s = s2 := by
  have hdata := congrArg String.data h
  rw [compositeKey_data, compositeKey_data] at hdata
  obtain ⟨h1, hrest⟩ := split_at_underscore _ _ _ _ ht ht2 hdata
  obtain ⟨h2, h3⟩ := split_at_underscore _ _ _ _ hd hd2 hrest
  exact ⟨String.ext h1, String.ext h2, String.ext h3⟩

theorem objectPrototypeKeys_shape :
    ∀ n ∈ objectPrototypeKeys, inheritedShape n.data = true := by
  decide

theorem compositeKey_not_inherited (t d s : String)
    (ht : noUnderscore t) (hd : noUnderscore d) (hne : d ≠ "") :
    compositeKey t d s ∉ objectPrototypeKeys := by
  intro hmem
  have hshape := objectPrototypeKeys_shape _ hmem
  rw [compositeKey_data] at hshape
  unfold noUnderscore at ht hd
  have hdne : d.data ≠ [] := fun h => hne (String.ext h)
  cases htd : t.data with
  | nil =>
    cases hdd : d.data with
    | nil => exact hdne hdd
    | cons c cs =>
      rw [hdd] at hd
      have hc : c ≠ '_' := fun h => hd (h ▸ List.mem_cons_self _ _)
      simp [inheritedShape, htd, hdd, hc] at hshape
  | cons c cs =>
    rw [htd] at ht
    have hc : c ≠ '_' := fun h => ht (h ▸ List.mem_cons_self _ _)
    simp [inheritedShape, htd, hc] at hshape

/-! ## Slot rendering and booking -/

/-- C3: for every therapist with a selected day `d`, the slots rendered are exactly the slots
that the therapist lists for that day, one element per slot and in the same order; each
rendered slot carries a "Book" action if and only if the composite key of (therapist id, `d`,
slot) is absent from `bookedSlots`, that is, `bookedSlots[key]` is not truthy. A slot whose key
is absent is rendered as "available" with the Book action; a slot whose key is present is
rendered as "booked" with no Book action. For a key that is not a property name inherited
from `Object.prototype`, absent means that it is not an own property. -/
theorem slot_rendering_rule (s : TherapistsState) (therapist : Therapist) (d : String)
    (hsel : selectedDay s.selectedDays therapist.id = Selected.day d) :
    (∀ r ∈ renderSlots s therapist,
      r.slot ∈ slotsOfDay therapist d ∧
      (r.bookAction = true ↔
        s.bookedSlots.has (compositeKey therapist.id d r.slot) = false) ∧
      (s.bookedSlots.has (compositeKey therapist.id d r.slot) = true →
        r.className = "slot booked" ∧ r.title = "Already booked" ∧ r.bookAction = false) ∧
      (s.bookedSlots.has (compositeKey therapist.id d r.slot) = false →
        r.className = "slot available" ∧ r.title = "Available") ∧
      (compositeKey therapist.id d r.slot ∉ objectPrototypeKeys →
        (r.bookAction = true ↔ compositeKey therapist.id d r.slot ∉ s.bookedSlots.own))) ∧
    (d ≠ "" →
      (renderSlots s therapist).map RenderedSlot.slot = slotsOfDay therapist d ∧
      renderSlots s therapist = (slotsOfDay therapist d).map (fun slot =>
        if s.bookedSlots.has (compositeKey therapist.id d slot) = true then
          (⟨slot, "slot booked", "Already booked", false, s.loading⟩ : RenderedSlot)
        else ⟨slot, "slot available", "Available", true, s.loading⟩) ∧
      ∀ slot ∈ slotsOfDay therapist d,
        (s.bookedSlots.has (compositeKey therapist.id d slot) = false →
          (⟨slot, "slot available", "Available", true, s.loading⟩ : RenderedSlot) ∈
            renderSlots s therapist) ∧
        (s.bookedSlots.has (compositeKey therapist.id d slot) = true →
          (⟨slot, "slot booked", "Already booked", false, s.loading⟩ : RenderedSlot) ∈
            renderSlots s therapist)) := by
  refine ⟨?_, ?_⟩
  · intro r hr
    simp only [renderSlots, hsel] at hr
    split at hr
    · simp at hr
    · simp only [List.mem_map] at hr
      obtain ⟨slot, hslot, rfl⟩ := hr
      refine ⟨hslot, ?_, ?_, ?_, ?_⟩
      · simp
      · intro h; simp [h]
      · intro h; simp [h]
      · intro hkey
        have hiff := BookedSlots.has_iff s.bookedSlots (compositeKey therapist.id d slot)
        cases hres : s.bookedSlots.has (compositeKey therapist.id d slot) with
        | false =>
          have hnot : compositeKey therapist.id d slot ∉ s.bookedSlots.own := by
            intro hmem
            have := hiff.2 (Or.inl hmem)
            rw [hres] at this
            exact Bool.noConfusion this
          simp [hres, hnot]
        | true =>
          have hmem : compositeKey therapist.id d slot ∈ s.bookedSlots.own := by
            rcases hiff.1 hres with h | h
            · exact h
            · exact absurd h hkey
          simp [hres, hmem]
  · intro hne
    have heq : renderSlots s therapist = (slotsOfDay therapist d).map (fun slot =>
        if s.bookedSlots.has (compositeKey therapist.id d slot) = true then
          (⟨slot, "slot booked", "Already booked", false, s.loading⟩ : RenderedSlot)
        else ⟨slot, "slot available", "Available", true, s.loading⟩) := by
      simp only [renderSlots, hsel, hne, if_false]
      apply List.map_congr_left
      intro slot _
      cases hres : s.bookedSlots.has (compositeKey therapist.id d slot) <;> simp
    refine ⟨?_, heq, ?_⟩
    · rw [heq, List.map_map]
      have hid : (RenderedSlot.slot ∘ fun slot =>
          if s.bookedSlots.has (compositeKey therapist.id d slot) = true then
            (⟨slot, "slot booked", "Already booked", false, s.loading⟩ : RenderedSlot)
          else ⟨slot, "slot available", "Available", true, s.loading⟩) = id := by
        funext slot
        simp only [Function.comp, id]
        split <;> rfl
      rw [hid, List.map_id]
    · intro slot hslot
      constructor
      · intro hfree
        rw [heq, List.mem_map]
        exact ⟨slot, hslot, by simp [hfree]⟩
      · intro hbooked
        rw [heq, List.mem_map]
        exact ⟨slot, hslot, by simp [hbooked]⟩

theorem slot_rendering_rule_witness :
    ("Monday" ≠ "" ∧ "11:00" ∈ slotsOfDay ⟨"1", "Dr. A", [⟨"Monday", ["10:00", "11:00"]⟩]⟩ "Monday" ∧
      (⟨["1_Monday_10:00"]⟩ : BookedSlots).has (compositeKey "1" "Monday" "11:00") = false) ∧
    (⟨"11:00", "slot available", "Available", true, false⟩ : RenderedSlot) ∈
      renderSlots
        { TherapistsState.initial with
          selectedDays := [("1", "Monday")]
          bookedSlots := ⟨["1_Monday_10:00"]⟩ }
        ⟨"1", "Dr. A", [⟨"Monday", ["10:00", "11:00"]⟩]⟩ ∧
    renderSlots
        { TherapistsState.initial with
          selectedDays := [("1", "Monday")]
          bookedSlots := ⟨["1_Monday_10:00"]⟩ }
        ⟨"1", "Dr. A", [⟨"Monday", ["10:00", "11:00"]⟩]⟩
      = [⟨"10:00", "slot booked", "Already booked", false, false⟩,
          ⟨"11:00", "slot available", "Available", true, false⟩] :=
  ⟨by decide,
   (((slot_rendering_rule
      { TherapistsState.initial with
        selectedDays := [("1", "Monday")]
        bookedSlots := ⟨["1_Monday_10:00"]⟩ }
      ⟨"1", "Dr. A", [⟨"Monday", ["10:00", "11:00"]⟩]⟩ "Monday" (by decide)).2
      (by decide)).2.2 "11:00" (by decide)).1 (by decide),
   by decide⟩

/-- C4 (as stated, refuted): the bookings list holding only the booking of therapist `1_2` on
day `3` at slot `4` marks the slot of therapist `1` on day `2_3` at slot `4` as booked,
because the two different triples produce the same composite key. And with an empty
therapist id and an empty day the slot `proto__` has the key `__proto__`, which reads as
booked in the object derived from the empty list. -/
theorem composite_key_counterexample :
    (compositeKey "1_2" "3" "4" = compositeKey "1" "2_3" "4" ∧
     (deriveBooked [⟨"1_2", "3", "4"⟩]).has (compositeKey "1" "2_3" "4") = true ∧
     ¬ ∃ b ∈ [(⟨"1_2", "3", "4"⟩ : BookingRecord)],
         b.therapist_id = "1" ∧ b.day = "2_3" ∧ b.slot = "4") ∧
    (compositeKey "" "" "proto__" = "__proto__" ∧
     (deriveBooked []).has (compositeKey "" "" "proto__") = true) := by
  decide

/-- C4 (amended): when no therapist id and no day contains an underscore, for every bookings
list and every slot (t, d, s) of a selected (non-empty) day, after the booked set is derived
from the list the slot is marked booked if and only if the list contains a booking whose
therapist_id is t, whose day is d and whose slot is s; and two triples with underscore-free
ids and days that produce the same composite key are equal. -/
theorem composite_key_identifies_triple (data : List BookingRecord) (t d s : String)
    (ht : noUnderscore t) (hd : noUnderscore d) (hne : d ≠ "")
    (hdata : ∀ b ∈ data, noUnderscore b.therapist_id ∧ noUnderscore b.day) :
    ((deriveBooked data).has (compositeKey t d s) = true ↔
      ∃ b ∈ data, b.therapist_id = t ∧ b.day = d ∧ b.slot = s) ∧
    (∀ t2 d2 s2 : String, noUnderscore t2 → noUnderscore d2 →
      compositeKey t d s = compositeKey t2 d2 s2 → t = t2 ∧ d = d2 ∧ s = s2) := by
  refine ⟨?_, ?_⟩
  · rw [deriveBooked_has]
    constructor
    · rintro (⟨b, hb, hkey⟩ | hin)
      · obtain ⟨h1, h2, h3⟩ := compositeKey_injective _ _ _ _ _ _
          (hdata b hb).1 (hdata b hb).2 ht hd hkey
        exact ⟨b, hb, h1, h2, h3⟩
      · exact absurd hin (compositeKey_not_inherited t d s ht hd hne)
    · rintro ⟨b, hb, h1, h2, h3⟩
      exact Or.inl ⟨b, hb, by rw [h1, h2, h3]⟩
  · intro t2 d2 s2 ht2 hd2 h
    exact compositeKey_injective t d s t2 d2 s2 ht hd ht2 hd2 h

theorem composite_key_identifies_triple_witness :
    (deriveBooked [⟨"1", "Monday", "10:00"⟩, ⟨"2", "Friday", "09_30"⟩]).has
        (compositeKey "2" "Friday" "09_30") = true ↔
      ∃ b ∈ [(⟨"1", "Monday", "10:00"⟩ : BookingRecord), ⟨"2", "Friday", "09_30"⟩],
        b.therapist_id = "2" ∧ b.day = "Friday" ∧ b.slot = "09_30" :=
  (composite_key_identifies_triple [⟨"1", "Monday", "10:00"⟩, ⟨"2", "Friday", "09_30"⟩]
    "2" "Friday" "09_30" (by decide) (by decide) (by decide) (by decide)).1

/-- C5 (as stated, refuted): after a successful response with no bookings at all, the key
`__defineGetter__` of therapist `_`, day `defineGetter`, slot `_` reads as present in
`bookedSlots` (the lookup finds the property inherited from `Object.prototype`) although no
booking produces it and the object has no own property. And for the response holding only
the booking of therapist `_`, day `proto`, slot `_`, whose key is `__proto__`, the
assignment is ignored and the derived object has no own property. -/
theorem derived_booked_set_counterexample :
    (compositeKey "_" "defineGetter" "_" = "__defineGetter__" ∧
     (fetchUserBookings TherapistsState.initial (FetchOutcome.ok [])).bookedSlots.has
       (compositeKey "_" "defineGetter" "_") = true ∧
     (fetchUserBookings TherapistsState.initial (FetchOutcome.ok [])).bookedSlots.own = [] ∧
     ¬ ∃ b ∈ ([] : List BookingRecord),
         compositeKey b.therapist_id b.day b.slot = compositeKey "_" "defineGetter" "_") ∧
    (compositeKey "_" "proto" "_" = "__proto__" ∧
     (fetchUserBookings TherapistsState.initial
       (FetchOutcome.ok [⟨"_", "proto", "_"⟩])).bookedSlots.own = []) := by
  decide

/-- C5 (amended): for every successful `/api/bookings` response L, `fetchUserBookings` replaces
`bookedSlots` by the object derived from L alone. A key reads as present afterwards if and
only if some booking in L produces it or it is one of the property names inherited from
`Object.prototype`. For every key that is not such a name, the key is an own property
afterwards if and only if some booking in L produces it, and a key of the previous
`bookedSlots` that no booking of L produces is absent. -/
theorem derived_booked_set (s : TherapistsState) (data : List BookingRecord) (key : String) :
    ((fetchUserBookings s (FetchOutcome.ok data)).bookedSlots.has key = true ↔
      (∃ b ∈ data, compositeKey b.therapist_id b.day b.slot = key) ∨
        key ∈ objectPrototypeKeys) ∧
    (key ∉ objectPrototypeKeys →
      (key ∈ (fetchUserBookings s (FetchOutcome.ok data)).bookedSlots.own ↔
        ∃ b ∈ data, compositeKey b.therapist_id b.day b.slot = key)) ∧
    (key ∉ objectPrototypeKeys →
      (¬ ∃ b ∈ data, compositeKey b.therapist_id b.day b.slot = key) →
      (fetchUserBookings s (FetchOutcome.ok data)).bookedSlots.has key = false) := by
  have hhas := deriveBooked_has data key
  refine ⟨hhas, ?_, ?_⟩
  · intro hkey
    have hne : key ≠ "__proto__" := fun h => hkey (h ▸ by decide)
    show key ∈ (deriveBooked data).own ↔ _
    rw [deriveBooked, foldl_assign_own]
    simp [BookedSlots.empty, hne]
  · intro hkey hnone
    show (deriveBooked data).has key = false
    cases hres : (deriveBooked data).has key with
    | false => rfl
    | true =>
      rcases hhas.1 hres with h | h
      · exact absurd h hnone
      · exact absurd h hkey

theorem derived_booked_set_witness :
    "1_Monday_10:00" ∉ objectPrototypeKeys ∧
    (¬ ∃ b ∈ [(⟨"2", "Friday", "09:00"⟩ : BookingRecord)],
        compositeKey b.therapist_id b.day b.slot = "1_Monday_10:00") ∧
    ({ TherapistsState.initial with bookedSlots := ⟨["1_Monday_10:00"]⟩ } :
      TherapistsState).bookedSlots.has "1_Monday_10:00" = true ∧
    (fetchUserBookings { TherapistsState.initial with bookedSlots := ⟨["1_Monday_10:00"]⟩ }
      (FetchOutcome.ok [⟨"2", "Friday", "09:00"⟩])).bookedSlots.has "1_Monday_10:00" = false :=
  ⟨by decide, by decide, by decide,
   (derived_booked_set { TherapistsState.initial with bookedSlots := ⟨["1_Monday_10:00"]⟩ }
      [⟨"2", "Friday", "09:00"⟩] "1_Monday_10:00").2.2 (by decide) (by decide)⟩

/-- C6: `handleBooking` issues the `POST /api/bookings` request if and only if the day is
non-empty and the composite key is not in `bookedSlots`. The guards are checked in this order:
with an empty day the error notice is "Please select a day first!"; with a non-empty day and
the key present it is "This slot is already booked!"; in both rejected cases no request is
sent and `bookedSlots` is unchanged. -/
theorem booking_guard (s : TherapistsState) (therapistId day slot : String)
    (net : PostOutcome) :
    ((handleBooking s therapistId day slot net).2 = [Request.postBooking therapistId day slot] ↔
      (day ≠ "" ∧ s.bookedSlots.has (compositeKey therapistId day slot) = false)) ∧
    (day = "" →
      (handleBooking s therapistId day slot net).1.popupType = "error" ∧
      (handleBooking s therapistId day slot net).1.popupMessage = "Please select a day first!" ∧
      (handleBooking s therapistId day slot net).2 = [] ∧
      (handleBooking s therapistId day slot net).1.bookedSlots = s.bookedSlots) ∧
    (day ≠ "" → s.bookedSlots.has (compositeKey therapistId day slot) = true →
      (handleBooking s therapistId day slot net).1.popupType = "error" ∧
      (handleBooking s therapistId day slot net).1.popupMessage =
        "This slot is already booked!" ∧
      (handleBooking s therapistId day slot net).2 = [] ∧
      (handleBooking s therapistId day slot net).1.bookedSlots = s.bookedSlots) := by
  by_cases hday : day = ""
  · simp [handleBooking, hday]
  · by_cases hkey : s.bookedSlots.has (compositeKey therapistId day slot) = true
    · simp [handleBooking, hday, hkey]
    · simp [handleBooking, hday, hkey]

theorem booking_guard_witness :
    ("" = "" →
      (handleBooking TherapistsState.initial "1" "" "10:00" PostOutcome.networkError).1.popupMessage
        = "Please select a day first!") ∧
    (handleBooking { TherapistsState.initial with bookedSlots := ⟨["1_Monday_10:00"]⟩ }
        "1" "Monday" "10:00" PostOutcome.networkError).1.popupMessage
      = "This slot is already booked!" :=
  ⟨fun h =>
    ((booking_guard TherapistsState.initial "1" "" "10:00" PostOutcome.networkError).2.1 h).2.1,
   ((booking_guard { TherapistsState.initial with bookedSlots := ⟨["1_Monday_10:00"]⟩ }
      "1" "Monday" "10:00" PostOutcome.networkError).2.2 (by decide) (by decide)).2.1⟩

/-- C7 (as stated, refuted): the POST for therapist `1`, `Monday`, `10:00` returns an OK
status with a body that is not JSON; `res.json()` rejects before `res.ok` is read, so the key
is not added and the popup is the network-error notice. -/
theorem booking_success_counterexample :
    (handleBooking TherapistsState.initial "1" "Monday" "10:00"
      (PostOutcome.response true none)).1.bookedSlots.has "1_Monday_10:00" = false ∧
    (handleBooking TherapistsState.initial "1" "Monday" "10:00"
      (PostOutcome.response true none)).1.popupType = "error" ∧
    (handleBooking TherapistsState.initial "1" "Monday" "10:00"
      (PostOutcome.response true none)).1.popupMessage = "Network error. Please try again." := by
  decide

/-- C7 (amended): for every therapistId, non-empty day and slot whose key is not yet booked,
when `POST /api/bookings` returns an OK status with a JSON body, `bookedSlots` afterwards is the
previous set plus the composite key with every other key unchanged, the popup is of type
success with text `Successfully booked ${day} at ${slot}!`, and the POST is the only request
issued (no bookings re-fetch). -/
theorem booking_success (s : TherapistsState) (therapistId day slot : String)
    (body : JsonBody)
    (hday : day ≠ "")
    (hfree : s.bookedSlots.has (compositeKey therapistId day slot) = false) :
    (∀ key : String,
      (handleBooking s therapistId day slot
          (PostOutcome.response true (some body))).1.bookedSlots.has key = true ↔
        (s.bookedSlots.has key = true ∨ key = compositeKey therapistId day slot)) ∧
    (handleBooking s therapistId day slot
      (PostOutcome.response true (some body))).1.popupType = "success" ∧
    (handleBooking s therapistId day slot
      (PostOutcome.response true (some body))).1.popupMessage
        = "Successfully booked " ++ day ++ " at " ++ slot ++ "!" ∧
    (handleBooking s therapistId day slot
      (PostOutcome.response true (some body))).2 = [Request.postBooking therapistId day slot] ∧
    Request.getBookings ∉ (handleBooking s therapistId day slot
      (PostOutcome.response true (some body))).2 := by
  have hrun : handleBooking s therapistId day slot (PostOutcome.response true (some body)) =
      ({ s with
          bookedSlots := s.bookedSlots.spreadWith (compositeKey therapistId day slot)
          popupType := "success"
          popupMessage := "Successfully booked " ++ day ++ " at " ++ slot ++ "!"
          loading := false },
        [Request.postBooking therapistId day slot]) := by
    simp [handleBooking, hday, hfree, handleBookingResponse]
  rw [hrun]
  refine ⟨?_, rfl, rfl, rfl, by simp⟩
  intro key
  simp only [BookedSlots.has_iff, BookedSlots.spreadWith, List.mem_cons]
  constructor
  · rintro ((h | h) | h)
    · exact Or.inr h
    · exact Or.inl (Or.inl h)
    · exact Or.inl (Or.inr h)
  · rintro ((h | h) | h)
    · exact Or.inl (Or.inr h)
    · exact Or.inr h
    · exact Or.inl (Or.inl h)

theorem booking_success_witness :
    compositeKey "1" "Monday" "10:00" = "1_Monday_10:00" ∧
    (handleBooking TherapistsState.initial "1" "Monday" "10:00"
      (PostOutcome.response true (some (JsonBody.value none)))).1.bookedSlots.has
        "1_Monday_10:00" = true ∧
    (handleBooking TherapistsState.initial "1" "Monday" "10:00"
      (PostOutcome.response true (some (JsonBody.value none)))).1.popupMessage
        = "Successfully booked Monday at 10:00!" :=
  ⟨by decide,
   ((booking_success TherapistsState.initial "1" "Monday" "10:00" (JsonBody.value none)
      (by decide) (by decide)).1 "1_Monday_10:00").2 (Or.inr (by decide)),
   (booking_success TherapistsState.initial "1" "Monday" "10:00" (JsonBody.value none)
      (by decide) (by decide)).2.2.1.trans (by decide)⟩

/-! ## Mood history -/

theorem mem_convertFrom (parseDate : String → Option Int) (clock : Nat → Int)
    (data : List MoodRecord) (e : MoodEntry) :
    ∀ i : Nat, e ∈ convertFrom parseDate clock i data →
      ∃ r ∈ data, ∃ now : Int, e = convertMood parseDate now r := by
  induction data with
  | nil => intro i h; simp [convertFrom] at h
  | cons r rs ih =>
    intro i h
    simp only [convertFrom, List.mem_cons] at h
    rcases h with h | h
    · exact ⟨r, List.mem_cons_self _ _, clock i, h⟩
    · obtain ⟨r2, hr2, now, he⟩ := ih (i + 1) h
      exact ⟨r2, List.mem_cons_of_mem _ hr2, now, he⟩

theorem convertFrom_mem (parseDate : String → Option Int) (clock : Nat → Int)
    (data : List MoodRecord) (r : MoodRecord) (hr : r ∈ data) :
    ∀ i : Nat, ∃ now : Int, convertMood parseDate now r ∈ convertFrom parseDate clock i data := by
  induction data with
  | nil => simp at hr
  | cons r2 rs ih =>
    intro i
    simp only [List.mem_cons] at hr
    rcases hr with h | h
    · exact ⟨clock i, by simp [convertFrom, h]⟩
    · obtain ⟨now, hnow⟩ := ih h (i + 1)
      exact ⟨now, by simp [convertFrom, hnow]⟩

theorem mem_sortByDate (l : List MoodEntry) (e : MoodEntry) : e ∈ sortByDate l ↔ e ∈ l :=
  (List.perm_insertionSort dateLe l).mem_iff

theorem moodScaleOrZero_unmapped (key : String)
    (hkey : key ∉ moodScaleKeys) (hproto : key ∉ objectPrototypeKeys) :
    moodScaleOrZero key = MoodValue.num 0 := by
  simp only [moodScaleKeys, moodScale, List.map, List.mem_cons, List.mem_singleton,
    List.not_mem_nil, or_false, not_or] at hkey
  obtain ⟨h1, h2, h3, h4, h5⟩ := hkey
  have hc : objectPrototypeKeys.contains key = false := by
    simpa using hproto
  have e1 : (key == "angry") = false := by simpa using h1
  have e2 : (key == "sad") = false := by simpa using h2
  have e3 : (key == "neutral") = false := by simpa using h3
  have e4 : (key == "good") = false := by simpa using h4
  have e5 : (key == "happy") = false := by simpa using h5
  simp only [moodScaleOrZero, moodScale, List.lookup, e1, e2, e3, e4, e5, hc]
  simp

/-- C8 (as stated, refuted): for the mood string `constructor`, which is none of the five
keys, `fetchMoods` stores as `moodValue` the function that `moodScale` inherits under that
name, not 0. -/
theorem mood_severity_lookup_counterexample :
    toLowerCase "constructor" ∉ moodScaleKeys ∧
    ((fetchMoods isoTime (fun _ => 1800000000000) MoodHistoryState.initial
      (FetchOutcome.ok [⟨1, "constructor", none, some "2024-01-02T12:00:00Z", none⟩])).moods.map
        MoodEntry.moodValue) = [MoodValue.inherited "constructor"] ∧
    MoodValue.inherited "constructor" ≠ MoodValue.num 0 := by
  decide

/-- C8 (amended): for every entry of the `/api/moods` response, with any mood string,
`fetchMoods` stores an entry whose `moodValue` is `moodScale[lowercased mood] || 0`: the fixed
lookup value of the lowercased mood string (angry 1, sad 2, neutral 3, good 4, happy 5),
the same for two mood strings that differ only in letter case, and 0 when the lowercased
string is neither one of those five keys nor a property name inherited from
`Object.prototype` (such as `constructor`). -/
theorem mood_severity_lookup (parseDate : String → Option Int) (clock : Nat → Int)
    (s : MoodHistoryState) (data : List MoodRecord) :
    (∀ r ∈ data, ∃ e ∈ (fetchMoods parseDate clock s (FetchOutcome.ok data)).moods,
      e.id = r.id ∧ e.mood = r.mood ∧
      e.moodValue = moodScaleOrZero (toLowerCase r.mood)) ∧
    (∀ e ∈ (fetchMoods parseDate clock s (FetchOutcome.ok data)).moods,
      e.moodValue = moodScaleOrZero (toLowerCase e.mood)) ∧
    (moodScaleOrZero "angry" = MoodValue.num 1 ∧ moodScaleOrZero "sad" = MoodValue.num 2 ∧
      moodScaleOrZero "neutral" = MoodValue.num 3 ∧ moodScaleOrZero "good" = MoodValue.num 4 ∧
      moodScaleOrZero "happy" = MoodValue.num 5) ∧
    (∀ a b : String, toLowerCase a = toLowerCase b →
      moodScaleOrZero (toLowerCase a) = moodScaleOrZero (toLowerCase b)) ∧
    (∀ mood : String, toLowerCase mood ∉ moodScaleKeys →
      toLowerCase mood ∉ objectPrototypeKeys →
      moodScaleOrZero (toLowerCase mood) = MoodValue.num 0) := by
  refine ⟨?_, ?_, by decide, ?_, ?_⟩
  · intro r hr
    obtain ⟨now, hnow⟩ := convertFrom_mem parseDate clock data r hr 0
    exact ⟨convertMood parseDate now r, (mem_sortByDate _ _).2 hnow, rfl, rfl, rfl⟩
  · intro e he
    obtain ⟨r, _, now, rfl⟩ := mem_convertFrom parseDate clock data e 0
      ((mem_sortByDate _ _).1 he)
    rfl
  · intro a b h
    rw [h]
  · intro mood h1 h2
    exact moodScaleOrZero_unmapped _ h1 h2

theorem mood_severity_lookup_witness :
    (∃ e ∈ (fetchMoods isoTime (fun _ => 1800000000000) MoodHistoryState.initial
        (FetchOutcome.ok [⟨1, "Sad", none, some "2024-01-02T12:00:00Z", none⟩,
          ⟨2, "Anxious", none, some "2024-01-03T08:30:00Z", none⟩])).moods,
      e.id = 2 ∧ e.mood = "Anxious" ∧
      e.moodValue = moodScaleOrZero (toLowerCase "Anxious")) ∧
    (toLowerCase "Anxious" ∉ moodScaleKeys ∧ toLowerCase "Anxious" ∉ objectPrototypeKeys ∧
      moodScaleOrZero (toLowerCase "Anxious") = MoodValue.num 0) ∧
    (toLowerCase "HaPPy" = toLowerCase "happy" ∧
      moodScaleOrZero (toLowerCase "HaPPy") = moodScaleOrZero (toLowerCase "happy")) :=
  ⟨(mood_severity_lookup isoTime (fun _ => 1800000000000) MoodHistoryState.initial
      [⟨1, "Sad", none, some "2024-01-02T12:00:00Z", none⟩,
        ⟨2, "Anxious", none, some "2024-01-03T08:30:00Z", none⟩]).1
      ⟨2, "Anxious", none, some "2024-01-03T08:30:00Z", none⟩ (by decide),
   ⟨by decide, by decide,
    (mood_severity_lookup isoTime (fun _ => 0) MoodHistoryState.initial []).2.2.2.2
      "Anxious" (by decide) (by decide)⟩,
   ⟨by decide,
    (mood_severity_lookup isoTime (fun _ => 0) MoodHistoryState.initial []).2.2.2.1
      "HaPPy" "happy" (by decide)⟩⟩

theorem convertMood_date (parseDate : String → Option Int) (now : Int) (r : MoodRecord)
    (ts : String) (t : Int)
    (h1 : r.timestamp = some ts) (h2 : ts ≠ "") (h3 : parseDate ts = some t) (h4 : t ≠ 0) :
    timestampTime parseDate (convertMood parseDate now r) = some t ∧
    (convertMood parseDate now r).date = t := by
  simp [timestampTime, convertMood, parsedTime, timeOrNow, h1, h2, h3, h4]

theorem pairwise_adjacent {α : Type} (R : α → α → Prop) (l : List α)
    (h : List.Pairwise R l) :
    ∀ (i : Nat) (a b : α), l[i]? = some a → l[i + 1]? = some b → R a b := by
  induction l with
  | nil => intro i a b ha; simp at ha
  | cons x xs ih =>
    intro i a b ha hb
    rw [List.pairwise_cons] at h
    cases i with
    | zero =>
      simp only [List.getElem?_cons_zero, Option.some.injEq] at ha
      simp only [List.getElem?_cons_succ] at hb
      subst ha
      exact h.1 b (List.getElem?_mem hb)
    | succ k =>
      simp only [List.getElem?_cons_succ] at ha hb
      exact ih h.2 k a b ha hb

/-- C9 (as stated, refuted): for the response with a first entry stamped
`1970-01-01T00:00:00Z` (time value 0, which is falsy, so its `date` is the clock reading) and
a second entry stamped `2020-01-01T00:00:00Z`, the stored list has the 2020 entry first:
the timestamp of the first entry is greater than the timestamp of the second. -/
theorem moods_sorted_counterexample :
    ((fetchMoods isoTime (fun _ => 1800000000000) MoodHistoryState.initial
      (FetchOutcome.ok [⟨1, "sad", none, some "1970-01-01T00:00:00Z", none⟩,
        ⟨2, "happy", none, some "2020-01-01T00:00:00Z", none⟩])).moods.map
          (timestampTime isoTime)) = [some 1577836800000, some 0] ∧
    ((fetchMoods isoTime (fun _ => 1800000000000) MoodHistoryState.initial
      (FetchOutcome.ok [⟨1, "sad", none, some "1970-01-01T00:00:00Z", none⟩,
        ⟨2, "happy", none, some "2020-01-01T00:00:00Z", none⟩])).moods.map
          MoodEntry.timestamp) = [some "2020-01-01T00:00:00Z", some "1970-01-01T00:00:00Z"] ∧
    ¬ ((1577836800000 : Int) ≤ 0) := by
  decide

/-- C9 (amended): for every `/api/moods` response, the list that `fetchMoods` stores is
non-decreasing by the derived field `date` (the time value of the timestamp, or the clock
reading when the timestamp is absent, is not a date, or has time value 0), for every pair of
entries and so for adjacent ones; when every response entry has a timestamp whose time value
is a non-zero number, the stored list is non-decreasing by timestamp. -/
theorem moods_sorted (parseDate : String → Option Int) (clock : Nat → Int)
    (s : MoodHistoryState) (data : List MoodRecord) :
    List.Pairwise (fun a b : MoodEntry => a.date ≤ b.date)
      (fetchMoods parseDate clock s (FetchOutcome.ok data)).moods ∧
    (∀ (i : Nat) (a b : MoodEntry),
      (fetchMoods parseDate clock s (FetchOutcome.ok data)).moods[i]? = some a →
      (fetchMoods parseDate clock s (FetchOutcome.ok data)).moods[i + 1]? = some b →
      a.date ≤ b.date) ∧
    ((∀ r ∈ data, ∃ ts t, r.timestamp = some ts ∧ ts ≠ "" ∧ parseDate ts = some t ∧ t ≠ 0) →
      List.Pairwise
        (fun a b : MoodEntry => ∃ ta tb, timestampTime parseDate a = some ta ∧
          timestampTime parseDate b = some tb ∧ ta ≤ tb)
        (fetchMoods parseDate clock s (FetchOutcome.ok data)).moods) := by
  have hsorted : List.Pairwise (fun a b : MoodEntry => a.date ≤ b.date)
      (sortByDate (convertFrom parseDate clock 0 data)) :=
    List.sorted_insertionSort dateLe _
  refine ⟨hsorted, pairwise_adjacent _ _ hsorted, ?_⟩
  intro hvalid
  have hmem : ∀ e ∈ sortByDate (convertFrom parseDate clock 0 data),
      timestampTime parseDate e = some e.date := by
    intro e he
    obtain ⟨r, hr, now, rfl⟩ := mem_convertFrom parseDate clock data e 0
      ((mem_sortByDate _ _).1 he)
    obtain ⟨ts, t, h1, h2, h3, h4⟩ := hvalid r hr
    obtain ⟨ha, hb⟩ := convertMood_date parseDate now r ts t h1 h2 h3 h4
    rw [ha, hb]
  exact hsorted.imp_of_mem (fun {a b} ha hb hab => ⟨a.date, b.date, hmem a ha, hmem b hb, hab⟩)

theorem moods_sorted_witness :
    (∀ r ∈ [(⟨1, "sad", none, some "2024-01-02T12:00:00Z", none⟩ : MoodRecord),
        ⟨2, "happy", none, some "2020-01-01T00:00:00Z", none⟩],
      ∃ ts t, r.timestamp = some ts ∧ ts ≠ "" ∧ isoTime ts = some t ∧ t ≠ 0) ∧
    List.Pairwise
      (fun a b : MoodEntry => ∃ ta tb, timestampTime isoTime a = some ta ∧
        timestampTime isoTime b = some tb ∧ ta ≤ tb)
      (fetchMoods isoTime (fun _ => 1800000000000) MoodHistoryState.initial
        (FetchOutcome.ok [⟨1, "sad", none, some "2024-01-02T12:00:00Z", none⟩,
          ⟨2, "happy", none, some "2020-01-01T00:00:00Z", none⟩])).moods ∧
    ((fetchMoods isoTime (fun _ => 1800000000000) MoodHistoryState.initial
        (FetchOutcome.ok [⟨1, "sad", none, some "2024-01-02T12:00:00Z", none⟩,
          ⟨2, "happy", none, some "2020-01-01T00:00:00Z", none⟩])).moods.map MoodEntry.id)
      = [2, 1] :=
  have hvalid : ∀ r ∈ [(⟨1, "sad", none, some "2024-01-02T12:00:00Z", none⟩ : MoodRecord),
        ⟨2, "happy", none, some "2020-01-01T00:00:00Z", none⟩],
      ∃ ts t, r.timestamp = some ts ∧ ts ≠ "" ∧ isoTime ts = some t ∧ t ≠ 0 := by
    intro r hr
    simp only [List.mem_cons, List.mem_singleton, List.not_mem_nil, or_false] at hr
    rcases hr with rfl | rfl
    · exact ⟨"2024-01-02T12:00:00Z", 1704196800000, rfl, by decide, by decide, by decide⟩
    · exact ⟨"2020-01-01T00:00:00Z", 1577836800000, rfl, by decide, by decide, by decide⟩
  ⟨hvalid,
   (moods_sorted isoTime (fun _ => 1800000000000) MoodHistoryState.initial _).2.2 hvalid,
   by decide⟩

theorem inDateRange_iff (parseDate : String → Option Int) (dateFrom dateTo : String)
    (mood : MoodEntry) :
    inDateRange parseDate dateFrom dateTo mood = true ↔
      (dateFrom = "" ∨ ∀ t, parseDate dateFrom = some t → t ≤ mood.date) ∧
      (dateTo = "" ∨ ∀ t, parseDate dateTo = some t → mood.date ≤ t) := by
  unfold inDateRange
  by_cases hf : dateFrom = "" <;> by_cases ht : dateTo = ""
  · simp [hf, ht]
  · cases hp : parseDate dateTo with
    | none => simp [hf, ht, gtTime, hp]
    | some v => simp [hf, ht, gtTime, hp]
  · cases hp : parseDate dateFrom with
    | none => simp [hf, ht, ltTime, hp]
    | some v => simp [hf, ht, ltTime, hp]
  · cases hp : parseDate dateFrom with
    | none =>
      cases hq : parseDate dateTo with
      | none => simp [hf, ht, ltTime, gtTime, hp, hq]
      | some w => simp [hf, ht, ltTime, gtTime, hp, hq]
    | some v =>
      cases hq : parseDate dateTo with
      | none => simp [hf, ht, ltTime, gtTime, hp, hq]
      | some w =>
        by_cases hlt : mood.date < v
        · simp [hf, ht, ltTime, gtTime, hp, hq, hlt]
        · simp [hf, ht, ltTime, gtTime, hp, hq, hlt, not_lt.1 hlt]

theorem filteredMoods_no_bounds (parseDate : String → Option Int) (s : MoodHistoryState)
    (hf : s.dateFrom = "") (ht : s.dateTo = "") :
    filteredMoods parseDate s = s.moods := by
  simp [filteredMoods, inDateRange, hf, ht]

/-- C10 (the code at the failing input): an entry logged at 12:00 UTC on 2024-01-02 is stored
with that time as its `date`; with `dateFrom = "2024-01-01"` and `dateTo = "2024-01-02"` the
upper bound is the time value of `new Date("2024-01-02")`, midnight at the start of that day,
so the entry, although logged on the `dateTo` day, is filtered out. -/
theorem date_filter_drops_dateTo_day :
    ((fetchMoods isoTime (fun _ => 1800000000000) MoodHistoryState.initial
      (FetchOutcome.ok [⟨1, "happy", none, some "2024-01-02T12:00:00Z", none⟩])).moods.map
        MoodEntry.date) = [1704196800000] ∧
    isoTime "2024-01-02" = some 1704153600000 ∧
    utcDay 1704196800000 = utcDay 1704153600000 ∧
    filteredMoods isoTime
      { fetchMoods isoTime (fun _ => 1800000000000) MoodHistoryState.initial
          (FetchOutcome.ok [⟨1, "happy", none, some "2024-01-02T12:00:00Z", none⟩]) with
        dateFrom := "2024-01-01"
        dateTo := "2024-01-02" } = [] := by
  decide

/-! ## Deleting a mood entry -/

/-- C11: for every mood list and every id, a confirmed `deleteMood(id)` whose DELETE succeeds
leaves exactly the entries whose id differs from `id`, in their previous relative order and
otherwise unchanged (the stored list is the previous list filtered by `entry.id !== id`),
changes no other state cell, and sends the DELETE as its only request: no `GET /api/moods`. -/
theorem delete_mood (s : MoodHistoryState) (id : Nat) (del : HttpOutcome JsonBody)
    (hdel : del.resolved = true) :
    (deleteMood s id true del).1.moods = s.moods.filter (fun entry => entry.id != id) ∧
    (∀ e : MoodEntry, e ∈ (deleteMood s id true del).1.moods ↔ (e ∈ s.moods ∧ e.id ≠ id)) ∧
    List.Sublist (deleteMood s id true del).1.moods s.moods ∧
    (deleteMood s id true del).1 = { s with moods := (deleteMood s id true del).1.moods } ∧
    (deleteMood s id true del).2.requests = [Request.deleteMood id] ∧
    Request.getMoods ∉ (deleteMood s id true del).2.requests := by
  have hrun : deleteMood s id true del =
      ({ s with moods := s.moods.filter (fun entry => entry.id != id) },
        { requests := [Request.deleteMood id],
          prompts := ["Are you sure you want to delete this mood entry?"], alerts := [] }) := by
    simp [deleteMood, hdel]
  rw [hrun]
  refine ⟨?_, ?_, ?_, rfl, rfl, by simp⟩
  · rfl
  · intro e; simp
  · exact List.filter_sublist _

theorem delete_mood_witness :
    (HttpOutcome.response true none : HttpOutcome JsonBody).resolved = true ∧
    ((deleteMood
        { MoodHistoryState.initial with
          moods := [⟨4, "sad", none, none, MoodValue.num 2, 100⟩,
            ⟨5, "happy", none, none, MoodValue.num 5, 200⟩,
            ⟨6, "good", some "walk", none, MoodValue.num 4, 300⟩] }
        5 true (HttpOutcome.response true none)).1.moods
      = [⟨4, "sad", none, none, MoodValue.num 2, 100⟩,
          ⟨6, "good", some "walk", none, MoodValue.num 4, 300⟩]) :=
  ⟨rfl,
   (delete_mood
      { MoodHistoryState.initial with
        moods := [⟨4, "sad", none, none, MoodValue.num 2, 100⟩,
          ⟨5, "happy", none, none, MoodValue.num 5, 200⟩,
          ⟨6, "good", some "walk", none, MoodValue.num 4, 300⟩] }
      5 (HttpOutcome.response true none) rfl).1.trans (by decide)⟩

/-! ## A failed fetch -/

theorem fetchMoods_failed_keeps (parseDate : String → Option Int) (clock : Nat → Int)
    (s : MoodHistoryState) :
    (fetchMoods parseDate clock s FetchOutcome.failed).moods = s.moods := rfl

theorem fetchBookings_failed_keeps (s : BookingsState) (get : HttpOutcome (Body Booking))
    (hget : get.resolved = false) :
    (fetchBookings s get).bookings = s.bookings := by
  cases get with
  | networkError => rfl
  | response ok body =>
    cases ok with
    | false => rfl
    | true => simp [HttpOutcome.resolved] at hget

theorem fetchContacts_failed_keeps (s : ContactsState) (get : HttpOutcome (Body Contact))
    (hget : get.resolved = false) :
    (fetchContacts s get).contacts = s.contacts := by
  cases get with
  | networkError => rfl
  | response ok body =>
    cases ok with
    | false => rfl
    | true => simp [HttpOutcome.resolved] at hget

/-- C12 (the code at the failing input): the contacts view holds one contact; `handleDelete(1)`
gets an OK status for its DELETE and then a 401 with the JSON body `{"msg":"Token has expired"}`
for its re-fetch. The re-fetch does not read the status, so `contacts` is replaced by that
body; the mount-time `fetchContacts` keeps the list on the same response. -/
theorem contacts_refetch_replaces_list_on_failed_get :
    (HttpOutcome.response false (some (Body.other "\x7b\"msg\":\"Token has expired\"\x7d")) :
      HttpOutcome (Body Contact)).resolved = false ∧
    (EmergencyContacts.handleDelete
        { ContactsState.initial with
          contacts := Body.array [⟨1, "Ann", "111", "", ""⟩], loading := false }
        1 (HttpOutcome.response true none)
        (HttpOutcome.response false
          (some (Body.other "\x7b\"msg\":\"Token has expired\"\x7d")))).1.contacts
      = Body.other "\x7b\"msg\":\"Token has expired\"\x7d" ∧
    (handleSubmit
        { ContactsState.initial with
          contacts := Body.array [⟨1, "Ann", "111", "", ""⟩], loading := false
          form := ⟨"Bob", "222", "", ""⟩ }
        (HttpOutcome.response true (some (Body.other "\x7b\"id\":2\x7d")))
        (HttpOutcome.response false
          (some (Body.other "\x7b\"msg\":\"Token has expired\"\x7d")))).1.contacts
      = Body.other "\x7b\"msg\":\"Token has expired\"\x7d" ∧
    (fetchContacts
        { ContactsState.initial with
          contacts := Body.array [⟨1, "Ann", "111", "", ""⟩], loading := false }
        (HttpOutcome.response false
          (some (Body.other "\x7b\"msg\":\"Token has expired\"\x7d")))).contacts
      = Body.array [⟨1, "Ann", "111", "", ""⟩] := by
  decide

/-! ## Creating a contact -/

/-- C13 (as stated, refuted): the POST returns an OK status with a body that is not JSON;
`await res.json()` rejects, so the form keeps its fields, no GET is sent and the list is
unchanged. And when the POST succeeds but the GET fails at the network, the list is the
previous one. -/
theorem refetch_after_create_counterexample :
    ((handleSubmit
        { ContactsState.initial with loading := false, form := ⟨"Bob", "222", "", ""⟩ }
        (HttpOutcome.response true none)
        (HttpOutcome.response true (some (Body.array [⟨2, "Bob", "222", "", ""⟩])))).1.form
      = ⟨"Bob", "222", "", ""⟩ ∧
     (handleSubmit
        { ContactsState.initial with loading := false, form := ⟨"Bob", "222", "", ""⟩ }
        (HttpOutcome.response true none)
        (HttpOutcome.response true (some (Body.array [⟨2, "Bob", "222", "", ""⟩])))).1.contacts
      = Body.array [] ∧
     (handleSubmit
        { ContactsState.initial with loading := false, form := ⟨"Bob", "222", "", ""⟩ }
        (HttpOutcome.response true none)
        (HttpOutcome.response true (some (Body.array [⟨2, "Bob", "222", "", ""⟩])))).2.requests
      = [Request.postContact "Bob" "222" "" ""]) ∧
    ((handleSubmit
        { ContactsState.initial with loading := false, form := ⟨"Bob", "222", "", ""⟩ }
        (HttpOutcome.response true (some (Body.other "\x7b\"id\":2\x7d")))
        HttpOutcome.networkError).1.contacts = Body.array [] ∧
     (handleSubmit
        { ContactsState.initial with loading := false, form := ⟨"Bob", "222", "", ""⟩ }
        (HttpOutcome.response true (some (Body.other "\x7b\"id\":2\x7d")))
        HttpOutcome.networkError).1.error = some "Failed to add contact") := by
  decide

/-- C13 (amended): for every emergency-contact form submission whose POST returns an OK status
with a JSON body, the form fields are reset to empty and a fresh
`GET /api/emergency-contacts` is issued after the POST; when that GET returns an OK status
with a JSON body, the contacts list afterwards equals the body of the GET, whatever the body
of the POST response was. -/
theorem refetch_after_create (s : ContactsState) (postBody getBody : Body Contact) :
    (handleSubmit s (HttpOutcome.response true (some postBody))
      (HttpOutcome.response true (some getBody))).1.contacts = getBody ∧
    (handleSubmit s (HttpOutcome.response true (some postBody))
      (HttpOutcome.response true (some getBody))).1.form = ContactForm.empty ∧
    (handleSubmit s (HttpOutcome.response true (some postBody))
      (HttpOutcome.response true (some getBody))).2.requests
        = [Request.postContact s.form.name s.form.phone s.form.email s.form.relationship,
            Request.getContacts] ∧
    (∀ otherPostBody : Body Contact,
      handleSubmit s (HttpOutcome.response true (some otherPostBody))
          (HttpOutcome.response true (some getBody))
        = handleSubmit s (HttpOutcome.response true (some postBody))
          (HttpOutcome.response true (some getBody))) ∧
    (∀ get : HttpOutcome (Body Contact),
      (handleSubmit s (HttpOutcome.response true (some postBody)) get).1.form
        = ContactForm.empty ∧
      (handleSubmit s (HttpOutcome.response true (some postBody)) get).2.requests
        = [Request.postContact s.form.name s.form.phone s.form.email s.form.relationship,
            Request.getContacts]) := by
  refine ⟨rfl, rfl, rfl, fun _ => rfl, ?_⟩
  intro get
  cases get with
  | networkError => exact ⟨rfl, rfl⟩
  | response ok body =>
    cases body with
    | none => exact ⟨rfl, rfl⟩
    | some data => exact ⟨rfl, rfl⟩

/-! ## Deleting: confirmation and failure -/

theorem deleteMood_declined (s : MoodHistoryState) (id : Nat) (del : HttpOutcome JsonBody) :
    (deleteMood s id false del).1 = s ∧ (deleteMood s id false del).2.requests = [] := by
  simp [deleteMood]

theorem deleteMood_request_confirmed (s : MoodHistoryState) (id : Nat) (confirmed : Bool)
    (del : HttpOutcome JsonBody)
    (h : Request.deleteMood id ∈ (deleteMood s id confirmed del).2.requests) :
    confirmed = true ∧ (deleteMood s id confirmed del).2.prompts ≠ [] := by
  cases confirmed with
  | false => simp [deleteMood] at h
  | true => cases hres : del.resolved <;> simp [deleteMood, hres]

theorem bookings_handleDelete_declined (s : BookingsState) (bookingId : Nat)
    (del : HttpOutcome JsonBody) (refetch : HttpOutcome (Body Booking)) :
    (Bookings.handleDelete s bookingId false del refetch).1 = s ∧
    (Bookings.handleDelete s bookingId false del refetch).2.requests = [] := by
  simp [Bookings.handleDelete]

theorem bookings_handleDelete_request_confirmed (s : BookingsState) (bookingId : Nat)
    (confirmed : Bool) (del : HttpOutcome JsonBody) (refetch : HttpOutcome (Body Booking))
    (h : Request.deleteBooking bookingId ∈
      (Bookings.handleDelete s bookingId confirmed del refetch).2.requests) :
    confirmed = true ∧ (Bookings.handleDelete s bookingId confirmed del refetch).2.prompts ≠ [] := by
  cases confirmed with
  | false => simp [Bookings.handleDelete] at h
  | true =>
    refine ⟨rfl, ?_⟩
    cases del with
    | networkError => simp [Bookings.handleDelete]
    | response ok body => cases ok <;> simp [Bookings.handleDelete]

/-- C14 (the code at the failing input): in the emergency-contacts view `handleDelete(1)`
shows no confirmation prompt and sends `DELETE /api/emergency-contacts/1` at once; with an OK
status and a re-fetch that answers with the empty collection, the contact is gone from the
local list although the user was never asked. -/
theorem contact_delete_without_confirmation :
    (EmergencyContacts.handleDelete
        { ContactsState.initial with
          contacts := Body.array [⟨1, "Ann", "111", "", ""⟩], loading := false }
        1 (HttpOutcome.response true none)
        (HttpOutcome.response true (some (Body.array [])))).2.prompts = [] ∧
    (EmergencyContacts.handleDelete
        { ContactsState.initial with
          contacts := Body.array [⟨1, "Ann", "111", "", ""⟩], loading := false }
        1 (HttpOutcome.response true none)
        (HttpOutcome.response true (some (Body.array [])))).2.requests
      = [Request.deleteContact 1, Request.getContacts] ∧
    (EmergencyContacts.handleDelete
        { ContactsState.initial with
          contacts := Body.array [⟨1, "Ann", "111", "", ""⟩], loading := false }
        1 (HttpOutcome.response true none)
        (HttpOutcome.response true (some (Body.array [])))).1.contacts = Body.array [] := by
  decide

/-- C15: for each of the mood, booking and emergency-contact delete handlers and for every
id, when the DELETE request fails (non-OK status or network error) the local list is exactly
what it was before the call, the DELETE is the only request sent (no re-fetch), and an error
is surfaced: an alert for moods, a non-empty `errorMsg` for bookings, the `error` state for
contacts. -/
theorem failed_delete_is_atomic (del : HttpOutcome JsonBody) (hdel : del.resolved = false)
    (id : Nat) :
    (∀ s : MoodHistoryState,
      (deleteMood s id true del).1 = s ∧
      (deleteMood s id true del).2.requests = [Request.deleteMood id] ∧
      (deleteMood s id true del).2.alerts = ["Failed to delete mood entry."]) ∧
    (∀ (s : BookingsState) (refetch : HttpOutcome (Body Booking)),
      (Bookings.handleDelete s id true del refetch).1.bookings = s.bookings ∧
      (Bookings.handleDelete s id true del refetch).2.requests = [Request.deleteBooking id] ∧
      ((Bookings.handleDelete s id true del refetch).1.errorMsg = "Failed to cancel booking." ∨
        (Bookings.handleDelete s id true del refetch).1.errorMsg = "Network error.") ∧
      (Bookings.handleDelete s id true del refetch).1.errorMsg ≠ "") ∧
    (∀ (s : ContactsState) (refetch : HttpOutcome (Body Contact)),
      (EmergencyContacts.handleDelete s id del refetch).1.contacts = s.contacts ∧
      (EmergencyContacts.handleDelete s id del refetch).2.requests
        = [Request.deleteContact id] ∧
      (EmergencyContacts.handleDelete s id del refetch).1.error
        = some "Failed to delete contact") := by
  refine ⟨?_, ?_, ?_⟩
  · intro s
    simp [deleteMood, hdel]
  · intro s refetch
    cases del with
    | networkError =>
      refine ⟨rfl, rfl, Or.inr rfl, ?_⟩
      show "Network error." ≠ ""
      decide
    | response ok body =>
      cases ok with
      | true => simp [HttpOutcome.resolved] at hdel
      | false =>
        refine ⟨rfl, rfl, Or.inl rfl, ?_⟩
        show "Failed to cancel booking." ≠ ""
        decide
  · intro s refetch
    cases del with
    | networkError => exact ⟨rfl, rfl, rfl⟩
    | response ok body =>
      cases ok with
      | true => simp [HttpOutcome.resolved] at hdel
      | false => exact ⟨rfl, rfl, rfl⟩

theorem failed_delete_is_atomic_witness :
    (HttpOutcome.response false none : HttpOutcome JsonBody).resolved = false ∧
    (Bookings.handleDelete
        { BookingsState.initial with bookings := [⟨7, "Dr. A", "Monday", "10:00"⟩] }
        7 true (HttpOutcome.response false none) HttpOutcome.networkError).1.bookings
      = [⟨7, "Dr. A", "Monday", "10:00"⟩] ∧
    (Bookings.handleDelete
        { BookingsState.initial with bookings := [⟨7, "Dr. A", "Monday", "10:00"⟩] }
        7 true (HttpOutcome.response false none) HttpOutcome.networkError).2.requests
      = [Request.deleteBooking 7] :=
  ⟨rfl,
   ((failed_delete_is_atomic (HttpOutcome.response false none) rfl 7).2.1
      { BookingsState.initial with bookings := [⟨7, "Dr. A", "Monday", "10:00"⟩] }
      HttpOutcome.networkError).1,
   ((failed_delete_is_atomic (HttpOutcome.response false none) rfl 7).2.1
      { BookingsState.initial with bookings := [⟨7, "Dr. A", "Monday", "10:00"⟩] }
      HttpOutcome.networkError).2.1⟩

/-! ## Editing a booking -/

theorem dropWhile_all_imp_nil {α : Type} (p : α → Bool) (l : List α)
    (h : ∀ x ∈ l.dropWhile p, p x = true) : l.dropWhile p = [] := by
  cases hd : l.dropWhile p with
  | nil => rfl
  | cons x xs =>
    have hne : l.dropWhile p ≠ [] := by rw [hd]; simp
    have hhead := List.head_dropWhile_not p l hne
    have hx : (l.dropWhile p).head hne = x := by simp [hd]
    rw [hx] at hhead
    have := h x (by rw [hd]; exact List.mem_cons_self _ _)
    rw [hhead] at this
    exact Bool.noConfusion this

theorem trim_eq_empty_iff (s : String) : trim s = "" ↔ isBlank s = true := by
  have hdata : trim s = "" ↔
      ((s.data.dropWhile isWhiteSpace).reverse.dropWhile isWhiteSpace).reverse = [] := by
    constructor
    · intro h; exact congrArg String.data h
    · intro h; exact String.ext h
  rw [hdata, List.reverse_eq_nil_iff, List.dropWhile_eq_nil_iff, isBlank, List.all_eq_true]
  constructor
  · intro h
    have hnil := dropWhile_all_imp_nil isWhiteSpace s.data
      (fun x hx => h x (List.mem_reverse.2 hx))
    exact List.dropWhile_eq_nil_iff.1 hnil
  · intro h x hx
    have hnil : s.data.dropWhile isWhiteSpace = [] := List.dropWhile_eq_nil_iff.2 h
    rw [hnil] at hx
    simp at hx

theorem fetchBookings_editingId (s : BookingsState) (get : HttpOutcome (Body Booking)) :
    (fetchBookings s get).editingId = s.editingId := by
  unfold fetchBookings
  split <;> rfl

theorem saveChangesResponse_requests (s : BookingsState) (put : HttpOutcome JsonBody)
    (refetch : HttpOutcome (Body Booking)) :
    (saveChangesResponse s put refetch).2 = [Request.getBookings] ∨
      (saveChangesResponse s put refetch).2 = [] := by
  unfold saveChangesResponse
  split
  · exact Or.inl rfl
  · exact Or.inr rfl
  · exact Or.inr rfl

theorem saveChangesResponse_failed (s : BookingsState) (put : HttpOutcome JsonBody)
    (refetch : HttpOutcome (Body Booking)) (hput : put.resolved = false) :
    (saveChangesResponse s put refetch).1.editingId = s.editingId ∧
    (saveChangesResponse s put refetch).1.bookings = s.bookings ∧
    (saveChangesResponse s put refetch).2 = [] := by
  cases put with
  | networkError => exact ⟨rfl, rfl, rfl⟩
  | response ok body =>
    cases ok with
    | true => simp [HttpOutcome.resolved] at hput
    | false =>
      cases body with
      | none => exact ⟨rfl, rfl, rfl⟩
      | some data =>
        cases data with
        | null => exact ⟨rfl, rfl, rfl⟩
        | value error => exact ⟨rfl, rfl, rfl⟩

/-- C16: for every `editedDay` and `editedSlot`, `saveChanges` issues the
`PUT /api/bookings/:id` request if and only if both are non-blank after trimming white space
(a trimmed string is empty exactly when the string is empty or white space only); when either
is blank it sends no request, sets the error message "Day and Slot cannot be empty." and
leaves the bookings list and the editing state unchanged; when the PUT is sent it is the first
request and its body carries the trimmed day and slot. -/
theorem booking_edit_validation (s : BookingsState) (bookingId : Nat)
    (put : HttpOutcome JsonBody) (refetch : HttpOutcome (Body Booking)) :
    ((∃ day slot : String,
        Request.putBooking bookingId day slot ∈ (saveChanges s bookingId put refetch).2.requests) ↔
      (trim s.editedDay ≠ "" ∧ trim s.editedSlot ≠ "")) ∧
    ((trim s.editedDay = "" ∨ trim s.editedSlot = "") →
      (saveChanges s bookingId put refetch).2.requests = [] ∧
      (saveChanges s bookingId put refetch).1.errorMsg = "Day and Slot cannot be empty." ∧
      (saveChanges s bookingId put refetch).1.bookings = s.bookings ∧
      (saveChanges s bookingId put refetch).1.editingId = s.editingId ∧
      (saveChanges s bookingId put refetch).1.editedDay = s.editedDay ∧
      (saveChanges s bookingId put refetch).1.editedSlot = s.editedSlot) ∧
    ((trim s.editedDay ≠ "" ∧ trim s.editedSlot ≠ "") →
      (saveChanges s bookingId put refetch).2.requests.head?
        = some (Request.putBooking bookingId (trim s.editedDay) (trim s.editedSlot)) ∧
      ∀ day slot : String,
        Request.putBooking bookingId day slot ∈ (saveChanges s bookingId put refetch).2.requests →
        day = trim s.editedDay ∧ slot = trim s.editedSlot) ∧
    (∀ text : String, trim text = "" ↔ isBlank text = true) := by
  by_cases hblank : trim s.editedDay = "" ∨ trim s.editedSlot = ""
  · have hrun : saveChanges s bookingId put refetch =
        ({ s with errorMsg := "Day and Slot cannot be empty.", successMsg := "" },
          Effects.none) := by
      simp [saveChanges, hblank]
    rw [hrun]
    refine ⟨?_, fun _ => ⟨rfl, rfl, rfl, rfl, rfl, rfl⟩, ?_, trim_eq_empty_iff⟩
    · constructor
      · rintro ⟨day, slot, h⟩
        simp [Effects.none] at h
      · rintro ⟨h1, h2⟩
        rcases hblank with h | h
        · exact absurd h h1
        · exact absurd h h2
    · rintro ⟨h1, h2⟩
      rcases hblank with h | h
      · exact absurd h h1
      · exact absurd h h2
  · have hvalid : trim s.editedDay ≠ "" ∧ trim s.editedSlot ≠ "" := by
      constructor
      · intro h; exact hblank (Or.inl h)
      · intro h; exact hblank (Or.inr h)
    have hreq : (saveChanges s bookingId put refetch).2.requests =
        Request.putBooking bookingId (trim s.editedDay) (trim s.editedSlot) ::
          (saveChangesResponse { s with loading := true } put refetch).2 := by
      simp [saveChanges, hblank]
    have hmem : ∀ day slot : String,
        Request.putBooking bookingId day slot ∈ (saveChanges s bookingId put refetch).2.requests →
        day = trim s.editedDay ∧ slot = trim s.editedSlot := by
      intro day slot h
      rw [hreq] at h
      rcases saveChangesResponse_requests { s with loading := true } put refetch with h2 | h2
      · rw [h2] at h
        simp at h
        exact h
      · rw [h2] at h
        simp at h
        exact h
    refine ⟨?_, fun h => absurd h hblank, fun _ => ⟨?_, hmem⟩, trim_eq_empty_iff⟩
    · constructor
      · intro _; exact hvalid
      · intro _
        exact ⟨trim s.editedDay, trim s.editedSlot, by rw [hreq]; exact List.mem_cons_self _ _⟩
    · rw [hreq]; rfl

theorem booking_edit_validation_witness :
    (trim "   " = "" ∨ trim "10:00" = "") ∧
    (saveChanges { BookingsState.initial with
        bookings := [⟨7, "Dr. A", "Monday", "10:00"⟩], editingId := some 7,
        editedDay := "   ", editedSlot := "10:00" }
      7 (HttpOutcome.response true none) HttpOutcome.networkError).2.requests = [] ∧
    (trim " Tuesday " ≠ "" ∧ trim "11:00\t" ≠ "") ∧
    (saveChanges { BookingsState.initial with
        bookings := [⟨7, "Dr. A", "Monday", "10:00"⟩], editingId := some 7,
        editedDay := " Tuesday ", editedSlot := "11:00\t" }
      7 (HttpOutcome.response false none) HttpOutcome.networkError).2.requests.head?
        = some (Request.putBooking 7 "Tuesday" "11:00") :=
  ⟨by decide,
   ((booking_edit_validation { BookingsState.initial with
        bookings := [⟨7, "Dr. A", "Monday", "10:00"⟩], editingId := some 7,
        editedDay := "   ", editedSlot := "10:00" }
      7 (HttpOutcome.response true none) HttpOutcome.networkError).2.1 (by decide)).1,
   by decide,
   ((booking_edit_validation { BookingsState.initial with
        bookings := [⟨7, "Dr. A", "Monday", "10:00"⟩], editingId := some 7,
        editedDay := " Tuesday ", editedSlot := "11:00\t" }
      7 (HttpOutcome.response false none) HttpOutcome.networkError).2.2.1 (by decide)).1.trans
      (by decide)⟩

/-- C17: for every valid edit (day and slot non-blank after trimming), when the PUT returns an
OK status `saveChanges` clears the editing state (`editingId` becomes null) and triggers a
re-fetch of the bookings (a `GET /api/bookings` follows the PUT); when the PUT returns a non-OK
status or fails at the network, `editingId` keeps its previous value, the bookings list is
unchanged and no re-fetch is sent. -/
theorem booking_update_outcome (s : BookingsState) (bookingId : Nat)
    (refetch : HttpOutcome (Body Booking))
    (hvalid : trim s.editedDay ≠ "" ∧ trim s.editedSlot ≠ "") :
    (∀ body : Option JsonBody,
      (saveChanges s bookingId (HttpOutcome.response true body) refetch).1.editingId = none ∧
      (saveChanges s bookingId (HttpOutcome.response true body) refetch).2.requests
        = [Request.putBooking bookingId (trim s.editedDay) (trim s.editedSlot),
            Request.getBookings] ∧
      (saveChanges s bookingId (HttpOutcome.response true body) refetch).1
        = fetchBookings
            { s with successMsg := "Booking updated successfully.", errorMsg := "",
                     editingId := none, loading := false } refetch) ∧
    (∀ put : HttpOutcome JsonBody, put.resolved = false →
      (saveChanges s bookingId put refetch).1.editingId = s.editingId ∧
      (saveChanges s bookingId put refetch).1.bookings = s.bookings ∧
      (saveChanges s bookingId put refetch).2.requests
        = [Request.putBooking bookingId (trim s.editedDay) (trim s.editedSlot)]) := by
  have hblank : ¬ (trim s.editedDay = "" ∨ trim s.editedSlot = "") := by
    rintro (h | h)
    · exact hvalid.1 h
    · exact hvalid.2 h
  refine ⟨?_, ?_⟩
  · intro body
    have hrun : saveChanges s bookingId (HttpOutcome.response true body) refetch =
        (fetchBookings
            { s with successMsg := "Booking updated successfully.", errorMsg := "",
                     editingId := none, loading := false } refetch,
          { requests := [Request.putBooking bookingId (trim s.editedDay) (trim s.editedSlot),
              Request.getBookings], prompts := [], alerts := [] }) := by
      simp [saveChanges, hblank, saveChangesResponse]
    rw [hrun]
    exact ⟨fetchBookings_editingId _ _, rfl, rfl⟩
  · intro put hput
    obtain ⟨h1, h2, h3⟩ := saveChangesResponse_failed { s with loading := true } put refetch hput
    simp only [saveChanges, hblank, if_false]
    exact ⟨h1, h2, by rw [h3]⟩

theorem booking_update_outcome_witness :
    (trim "Tuesday" ≠ "" ∧ trim "11:00" ≠ "") ∧
    (saveChanges { BookingsState.initial with
        bookings := [⟨7, "Dr. A", "Monday", "10:00"⟩], editingId := some 7,
        editedDay := "Tuesday", editedSlot := "11:00" }
      7 (HttpOutcome.response true none)
      (HttpOutcome.response true (some (Body.array [⟨7, "Dr. A", "Tuesday", "11:00"⟩])))
      ).1.editingId = none ∧
    (saveChanges { BookingsState.initial with
        bookings := [⟨7, "Dr. A", "Monday", "10:00"⟩], editingId := some 7,
        editedDay := "Tuesday", editedSlot := "11:00" }
      7 (HttpOutcome.response false (some (JsonBody.value (some "Slot taken"))))
      HttpOutcome.networkError).1.editingId = some 7 :=
  ⟨by decide,
   ((booking_update_outcome { BookingsState.initial with
        bookings := [⟨7, "Dr. A", "Monday", "10:00"⟩], editingId := some 7,
        editedDay := "Tuesday", editedSlot := "11:00" }
      7 (HttpOutcome.response true (some (Body.array [⟨7, "Dr. A", "Tuesday", "11:00"⟩])))
      (by decide)).1 none).1,
   ((booking_update_outcome { BookingsState.initial with
        bookings := [⟨7, "Dr. A", "Monday", "10:00"⟩], editingId := some 7,
        editedDay := "Tuesday", editedSlot := "11:00" }
      7 HttpOutcome.networkError (by decide)).2
      (HttpOutcome.response false (some (JsonBody.value (some "Slot taken")))) rfl).1⟩

/-! ## Submitting the contact form -/

theorem handleSubmit_sends_post (s : ContactsState) (post refetch : HttpOutcome (Body Contact)) :
    (handleSubmit s post refetch).2.requests.head?
      = some (Request.postContact s.form.name s.form.phone s.form.email s.form.relationship) := by
  unfold handleSubmit
  split <;> rfl

/-- C18: for every form state of the emergency-contacts view, submitting the form issues the
`POST /api/emergency-contacts` request only when both name and phone are non-empty (the two
inputs are `required`, so the browser does not dispatch `submit` otherwise); with an empty name
or an empty phone no request is issued and the state, with it the contacts list, is
unchanged. -/
theorem contact_create_validation (validEmail : String → Bool) (s : ContactsState)
    (post refetch : HttpOutcome (Body Contact)) :
    ((∃ name phone email relationship : String,
        Request.postContact name phone email relationship ∈
          (submitContactForm validEmail s post refetch).2.requests) →
      s.form.name ≠ "" ∧ s.form.phone ≠ "") ∧
    ((s.form.name = "" ∨ s.form.phone = "") →
      (submitContactForm validEmail s post refetch).2.requests = [] ∧
      (submitContactForm validEmail s post refetch).1.contacts = s.contacts ∧
      (submitContactForm validEmail s post refetch).1 = s) := by
  have hinvalid : (s.form.name = "" ∨ s.form.phone = "") →
      submitContactForm validEmail s post refetch = (s, Effects.none) := by
    intro h
    have hf : formIsValid validEmail s.form = false := by
      rcases h with h | h <;> simp [formIsValid, h]
    simp [submitContactForm, hf]
  refine ⟨?_, ?_⟩
  · rintro ⟨name, phone, email, relationship, hmem⟩
    by_cases h : s.form.name = "" ∨ s.form.phone = ""
    · rw [hinvalid h] at hmem
      simp [Effects.none] at hmem
    · exact ⟨fun hn => h (Or.inl hn), fun hp => h (Or.inr hp)⟩
  · intro h
    rw [hinvalid h]
    exact ⟨rfl, rfl, rfl⟩

theorem contact_create_validation_witness :
    (({ ContactsState.initial with loading := false, form := ⟨"", "222", "", ""⟩ } :
        ContactsState).form.name = "" ∨
      ({ ContactsState.initial with loading := false, form := ⟨"", "222", "", ""⟩ } :
        ContactsState).form.phone = "") ∧
    (submitContactForm (fun _ => true)
        { ContactsState.initial with loading := false, form := ⟨"", "222", "", ""⟩ }
        (HttpOutcome.response true (some (Body.other "\x7b\"id\":2\x7d")))
        (HttpOutcome.response true (some (Body.array [⟨2, "", "222", "", ""⟩])))).2.requests
      = [] ∧
    (submitContactForm (fun _ => true)
        { ContactsState.initial with loading := false, form := ⟨"Bob", "222", "", ""⟩ }
        (HttpOutcome.response true (some (Body.other "\x7b\"id\":2\x7d")))
        (HttpOutcome.response true (some (Body.array [⟨2, "Bob", "222", "", ""⟩])))).2.requests
      = [Request.postContact "Bob" "222" "" "", Request.getContacts] :=
  ⟨by decide,
   ((contact_create_validation (fun _ => true)
      { ContactsState.initial with loading := false, form := ⟨"", "222", "", ""⟩ }
      (HttpOutcome.response true (some (Body.other "\x7b\"id\":2\x7d")))
      (HttpOutcome.response true (some (Body.array [⟨2, "", "222", "", ""⟩])))).2
      (by decide)).1,
   by decide⟩

/-! ## Fetching twice -/

theorem convertFrom_clock_irrelevant (parseDate : String → Option Int)
    (clock1 clock2 : Nat → Int) (data : List MoodRecord)
    (hvalid : ∀ r ∈ data, ∃ t, parsedTime parseDate r = some t ∧ t ≠ 0) :
    ∀ i j : Nat, convertFrom parseDate clock1 i data = convertFrom parseDate clock2 j data := by
  induction data with
  | nil => intro i j; rfl
  | cons r rs ih =>
    intro i j
    obtain ⟨t, ht, hne⟩ := hvalid r (List.mem_cons_self _ _)
    have hrest := ih (fun r2 hr2 => hvalid r2 (List.mem_cons_of_mem _ hr2)) (i + 1) (j + 1)
    simp only [convertFrom, hrest, convertMood, ht, timeOrNow, hne, if_false]

theorem fetchBookings_twice (s : BookingsState) (get : HttpOutcome (Body Booking)) :
    (fetchBookings (fetchBookings s get) get).bookings = (fetchBookings s get).bookings := by
  unfold fetchBookings
  split <;> rfl

/-- C19 (as stated, refuted): the same response body, with one entry that has no timestamp and
one whose timestamp is not a date, is fetched twice, five seconds apart; the two stored lists
differ, because each such entry is dated by the clock reading of its fetch. -/
theorem refetch_idempotence_counterexample :
    ((fetchMoods isoTime (fun _ => 1800000000000) MoodHistoryState.initial
      (FetchOutcome.ok [⟨1, "sad", none, none, none⟩,
        ⟨2, "happy", none, some "yesterday", none⟩])).moods.map MoodEntry.date)
      = [1800000000000, 1800000000000] ∧
    ((fetchMoods isoTime (fun _ => 1800000005000)
      (fetchMoods isoTime (fun _ => 1800000000000) MoodHistoryState.initial
        (FetchOutcome.ok [⟨1, "sad", none, none, none⟩,
          ⟨2, "happy", none, some "yesterday", none⟩]))
      (FetchOutcome.ok [⟨1, "sad", none, none, none⟩,
        ⟨2, "happy", none, some "yesterday", none⟩])).moods.map MoodEntry.date)
      = [1800000005000, 1800000005000] ∧
    (fetchMoods isoTime (fun _ => 1800000005000)
      (fetchMoods isoTime (fun _ => 1800000000000) MoodHistoryState.initial
        (FetchOutcome.ok [⟨1, "sad", none, none, none⟩,
          ⟨2, "happy", none, some "yesterday", none⟩]))
      (FetchOutcome.ok [⟨1, "sad", none, none, none⟩,
        ⟨2, "happy", none, some "yesterday", none⟩])).moods
      ≠ (fetchMoods isoTime (fun _ => 1800000000000) MoodHistoryState.initial
        (FetchOutcome.ok [⟨1, "sad", none, none, none⟩,
          ⟨2, "happy", none, some "yesterday", none⟩])).moods := by
  decide

/-- C19 (amended): for the bookings view, calling `fetchBookings` twice with the same outcome
yields identical local lists, and after an OK response whose body is an array the list is
that array. For the moods view, when every entry of the response body has a timestamp (or,
failing that, a `date` field) whose time value is a non-zero number, calling `fetchMoods`
twice with the same response body yields identical local lists, whatever the clock readings
and the previous state: the stored list is a function of the response body alone. -/
theorem refetch_idempotence :
    (∀ (s : BookingsState) (get : HttpOutcome (Body Booking)),
      (fetchBookings (fetchBookings s get) get).bookings = (fetchBookings s get).bookings) ∧
    (∀ (s : BookingsState) (data : List Booking),
      (fetchBookings s (HttpOutcome.response true (some (Body.array data)))).bookings = data) ∧
    (∀ (parseDate : String → Option Int) (clock1 clock2 : Nat → Int)
      (s1 s2 : MoodHistoryState) (data : List MoodRecord),
      (∀ r ∈ data, ∃ t, parsedTime parseDate r = some t ∧ t ≠ 0) →
      (fetchMoods parseDate clock2 (fetchMoods parseDate clock1 s1 (FetchOutcome.ok data))
          (FetchOutcome.ok data)).moods
        = (fetchMoods parseDate clock1 s1 (FetchOutcome.ok data)).moods ∧
      (fetchMoods parseDate clock2 s2 (FetchOutcome.ok data)).moods
        = (fetchMoods parseDate clock1 s1 (FetchOutcome.ok data)).moods) := by
  refine ⟨fetchBookings_twice, fun _ _ => rfl, ?_⟩
  intro parseDate clock1 clock2 s1 s2 data hvalid
  have h := convertFrom_clock_irrelevant parseDate clock2 clock1 data hvalid 0 0
  constructor
  · show sortByDate (convertFrom parseDate clock2 0 data)
      = sortByDate (convertFrom parseDate clock1 0 data)
    rw [h]
  · show sortByDate (convertFrom parseDate clock2 0 data)
      = sortByDate (convertFrom parseDate clock1 0 data)
    rw [h]

theorem refetch_idempotence_witness :
    (∀ r ∈ [(⟨1, "sad", none, some "2024-01-02T12:00:00Z", none⟩ : MoodRecord),
        ⟨2, "happy", none, none, some "2020-01-01"⟩],
      ∃ t, parsedTime isoTime r = some t ∧ t ≠ 0) ∧
    (fetchMoods isoTime (fun _ => 1800000005000)
        (fetchMoods isoTime (fun _ => 1800000000000) MoodHistoryState.initial
          (FetchOutcome.ok [⟨1, "sad", none, some "2024-01-02T12:00:00Z", none⟩,
            ⟨2, "happy", none, none, some "2020-01-01"⟩]))
        (FetchOutcome.ok [⟨1, "sad", none, some "2024-01-02T12:00:00Z", none⟩,
          ⟨2, "happy", none, none, some "2020-01-01"⟩])).moods
      = (fetchMoods isoTime (fun _ => 1800000000000) MoodHistoryState.initial
          (FetchOutcome.ok [⟨1, "sad", none, some "2024-01-02T12:00:00Z", none⟩,
            ⟨2, "happy", none, none, some "2020-01-01"⟩])).moods :=
  have hvalid : ∀ r ∈ [(⟨1, "sad", none, some "2024-01-02T12:00:00Z", none⟩ : MoodRecord),
        ⟨2, "happy", none, none, some "2020-01-01"⟩],
      ∃ t, parsedTime isoTime r = some t ∧ t ≠ 0 := by
    intro r hr
    simp only [List.mem_cons, List.mem_singleton, List.not_mem_nil, or_false] at hr
    rcases hr with rfl | rfl
    · exact ⟨1704196800000, by decide, by decide⟩
    · exact ⟨1577836800000, by decide, by decide⟩
  ⟨hvalid,
   (refetch_idempotence.2.2 isoTime (fun _ => 1800000000000) (fun _ => 1800000005000)
      MoodHistoryState.initial MoodHistoryState.initial _ hvalid).1⟩

/-! ## Login across reloads -/

/-- C20: for every non-empty token `t`, after `login(t)` the storage slot `token` holds `t`
and the in-memory state is `authToken = t` with `isAuthenticated = true`; initialising a
fresh `AuthProvider` from that storage yields the same state, and the initialisation sends no
request. -/
theorem login_persists_across_reloads (s : AuthState) (t : String) (ht : t ≠ "") :
    (AuthProvider.login s (TokenValue.str t)).storage = some t ∧
    (AuthProvider.login s (TokenValue.str t)).authToken = TokenValue.str t ∧
    (AuthProvider.login s (TokenValue.str t)).isAuthenticated = true ∧
    (AuthProvider.init (AuthProvider.login s (TokenValue.str t)).storage).authToken
      = TokenValue.str t ∧
    (AuthProvider.init (AuthProvider.login s (TokenValue.str t)).storage).isAuthenticated
      = true ∧
    AuthProvider.init (AuthProvider.login s (TokenValue.str t)).storage
      = AuthProvider.login s (TokenValue.str t) ∧
    AuthProvider.initRequests (AuthProvider.login s (TokenValue.str t)).storage = [] := by
  have hinit : AuthProvider.init (some t) =
      { storage := some t, authToken := TokenValue.str t, isAuthenticated := true } := by
    simp [AuthProvider.init, AuthProvider.mountEffect, AuthProvider.initialState, getItem,
      TokenValue.truthy, ht]
  have hlogin : AuthProvider.login s (TokenValue.str t) =
      { storage := some t, authToken := TokenValue.str t, isAuthenticated := true } := rfl
  rw [hlogin]
  refine ⟨rfl, rfl, rfl, ?_, ?_, ?_, rfl⟩
  · show (AuthProvider.init (some t)).authToken = TokenValue.str t
    rw [hinit]
  · show (AuthProvider.init (some t)).isAuthenticated = true
    rw [hinit]
  · show AuthProvider.init (some t) = _
    rw [hinit]

theorem login_persists_across_reloads_witness :
    "abc.def" ≠ "" ∧
    AuthProvider.init (AuthProvider.login (AuthProvider.init none)
        (TokenValue.str "abc.def")).storage
      = { storage := some "abc.def", authToken := TokenValue.str "abc.def",
          isAuthenticated := true } :=
  ⟨by decide,
   (login_persists_across_reloads (AuthProvider.init none) "abc.def"
      (by decide)).2.2.2.2.2.1.trans (by decide)⟩

/-! ## Logout -/

/-- C21: from every session state, `logout()` leaves the storage slot `token` absent,
`authToken` null and `isAuthenticated` false; initialising a fresh `AuthProvider` afterwards
yields the unauthenticated state, and a second `logout()` changes nothing. -/
theorem logout_clears_session (s : AuthState) :
    (AuthProvider.logout s).storage = none ∧
    (AuthProvider.logout s).authToken = TokenValue.null ∧
    (AuthProvider.logout s).isAuthenticated = false ∧
    AuthProvider.init (AuthProvider.logout s).storage
      = { storage := none, authToken := TokenValue.null, isAuthenticated := false } ∧
    AuthProvider.init (AuthProvider.logout s).storage = AuthProvider.logout s ∧
    AuthProvider.logout (AuthProvider.logout s) = AuthProvider.logout s :=
  ⟨rfl, rfl, rfl, rfl, rfl, rfl⟩

/-! ## Login failure and server messages -/

/-- C22 (as stated, refuted): the POST for `a@a.com` returns a non-OK status with the body
`{msg: ""}`; the text displayed is the fallback "Login failed", not the empty `msg`. -/
theorem login_failure_counterexample :
    (handleLogin { LoginState.initial with email := "a@a.com", password := "bad" }
      (AuthProvider.init none)
      (HttpOutcome.response false
        (some (LoginBody.value (some "") TokenValue.undefined)))).login.error = "Login failed" ∧
    displayedError
      (handleLogin { LoginState.initial with email := "a@a.com", password := "bad" }
        (AuthProvider.init none)
        (HttpOutcome.response false
          (some (LoginBody.value (some "") TokenValue.undefined)))).login
      = some "Login failed" ∧
    "Login failed" ≠ "" := by
  decide

/-- C22 (amended): for every email and password, when `POST /login` returns a non-OK status
with body `{msg: m}` and `m` is a non-empty string, `handleLogin` displays the error text `m`,
does not call the session `login` mutator (the session is unchanged), raises no alert and
performs no navigation; the POST is the only request. -/
theorem login_failure (s : LoginState) (session : AuthState) (m : String)
    (token : TokenValue) (hm : m ≠ "") :
    (handleLogin s session
      (HttpOutcome.response false (some (LoginBody.value (some m) token)))).login.error = m ∧
    displayedError (handleLogin s session
      (HttpOutcome.response false (some (LoginBody.value (some m) token)))).login = some m ∧
    (handleLogin s session
      (HttpOutcome.response false (some (LoginBody.value (some m) token)))).session = session ∧
    (handleLogin s session
      (HttpOutcome.response false (some (LoginBody.value (some m) token)))).navigations = [] ∧
    (handleLogin s session
      (HttpOutcome.response false (some (LoginBody.value (some m) token)))).alerts = [] ∧
    (handleLogin s session
      (HttpOutcome.response false (some (LoginBody.value (some m) token)))).requests
        = [Request.postLogin s.email s.password] := by
  have herr : (handleLogin s session
      (HttpOutcome.response false (some (LoginBody.value (some m) token)))).login.error = m := by
    simp [handleLogin, hm]
  refine ⟨herr, ?_, rfl, rfl, rfl, rfl⟩
  simp [displayedError, herr, hm]

theorem login_failure_witness :
    "Login failed" ≠ "" ∧
    displayedError
      (handleLogin { LoginState.initial with email := "a@a.com", password := "bad" }
        (AuthProvider.init none)
        (HttpOutcome.response false
          (some (LoginBody.value (some "Login failed") TokenValue.undefined)))).login
      = some "Login failed" ∧
    (handleLogin { LoginState.initial with email := "a@a.com", password := "bad" }
        (AuthProvider.init none)
        (HttpOutcome.response false
          (some (LoginBody.value (some "Login failed") TokenValue.undefined)))).navigations
      = [] :=
  ⟨by decide,
   (login_failure { LoginState.initial with email := "a@a.com", password := "bad" }
      (AuthProvider.init none) "Login failed" TokenValue.undefined (by decide)).2.1,
   (login_failure { LoginState.initial with email := "a@a.com", password := "bad" }
      (AuthProvider.init none) "Login failed" TokenValue.undefined (by decide)).2.2.2.1⟩

/-- C23 (as stated, refuted): with a non-OK status and a body whose message field is present
but is the empty string, login, booking creation and booking update each show their generic
fallback, not the field. -/
theorem server_messages_counterexample :
    (handleLogin LoginState.initial (AuthProvider.init none)
      (HttpOutcome.response false
        (some (LoginBody.value (some "") TokenValue.undefined)))).login.error = "Login failed" ∧
    (handleBooking TherapistsState.initial "1" "Monday" "10:00"
      (PostOutcome.response false (some (JsonBody.value (some ""))))).1.popupMessage
      = "Booking failed." ∧
    (saveChanges { BookingsState.initial with editedDay := "Monday", editedSlot := "10:00" } 7
      (HttpOutcome.response false (some (JsonBody.value (some ""))))
      HttpOutcome.networkError).1.errorMsg = "Failed to update booking." := by
  decide

/-- C23 (amended): for login, booking creation and booking update, whenever the backend
answers with a non-OK status and a JSON body that is not `null`, the message shown to the user
equals the error message field of the body (`msg` for login, `error` for bookings) whenever
that field is present and not empty, and equals the fixed generic fallback ("Login failed",
"Booking failed.", "Failed to update booking.") when the field is absent or empty. -/
theorem server_messages_verbatim (m : String) (hm : m ≠ "") :
    (∀ (s : LoginState) (session : AuthState) (token : TokenValue),
      (handleLogin s session
        (HttpOutcome.response false (some (LoginBody.value (some m) token)))).login.error = m ∧
      (handleLogin s session
        (HttpOutcome.response false (some (LoginBody.value none token)))).login.error
          = "Login failed" ∧
      (handleLogin s session
        (HttpOutcome.response false (some (LoginBody.value (some "") token)))).login.error
          = "Login failed") ∧
    (∀ (s : TherapistsState) (therapistId day slot : String), day ≠ "" →
      s.bookedSlots.has (compositeKey therapistId day slot) = false →
      (handleBooking s therapistId day slot
        (PostOutcome.response false (some (JsonBody.value (some m))))).1.popupMessage = m ∧
      (handleBooking s therapistId day slot
        (PostOutcome.response false (some (JsonBody.value none)))).1.popupMessage
          = "Booking failed." ∧
      (handleBooking s therapistId day slot
        (PostOutcome.response false (some (JsonBody.value (some ""))))).1.popupMessage
          = "Booking failed.") ∧
    (∀ (s : BookingsState) (bookingId : Nat) (refetch : HttpOutcome (Body Booking)),
      (trim s.editedDay ≠ "" ∧ trim s.editedSlot ≠ "") →
      (saveChanges s bookingId
        (HttpOutcome.response false (some (JsonBody.value (some m)))) refetch).1.errorMsg = m ∧
      (saveChanges s bookingId
        (HttpOutcome.response false (some (JsonBody.value none))) refetch).1.errorMsg
          = "Failed to update booking." ∧
      (saveChanges s bookingId
        (HttpOutcome.response false (some (JsonBody.value (some "")))) refetch).1.errorMsg
          = "Failed to update booking.") := by
  refine ⟨?_, ?_, ?_⟩
  · intro s session token
    refine ⟨?_, rfl, rfl⟩
    simp [handleLogin, hm]
  · intro s therapistId day slot hday hfree
    refine ⟨?_, ?_, ?_⟩ <;> simp [handleBooking, hday, hfree, handleBookingResponse, hm]
  · intro s bookingId refetch hvalid
    have hblank : ¬ (trim s.editedDay = "" ∨ trim s.editedSlot = "") := by
      rintro (h | h)
      · exact hvalid.1 h
      · exact hvalid.2 h
    refine ⟨?_, ?_, ?_⟩ <;> simp [saveChanges, hblank, saveChangesResponse, hm]

theorem server_messages_verbatim_witness :
    "Slot taken" ≠ "" ∧
    (handleBooking TherapistsState.initial "1" "Monday" "10:00"
      (PostOutcome.response false (some (JsonBody.value (some "Slot taken"))))).1.popupMessage
      = "Slot taken" ∧
    (saveChanges { BookingsState.initial with editedDay := "Monday", editedSlot := "10:00" } 7
      (HttpOutcome.response false (some (JsonBody.value (some "Slot taken"))))
      HttpOutcome.networkError).1.errorMsg = "Slot taken" :=
  ⟨by decide,
   ((server_messages_verbatim "Slot taken" (by decide)).2.1 TherapistsState.initial
      "1" "Monday" "10:00" (by decide) (by decide)).1,
   ((server_messages_verbatim "Slot taken" (by decide)).2.2
      { BookingsState.initial with editedDay := "Monday", editedSlot := "10:00" } 7
      HttpOutcome.networkError (by decide)).1⟩

/-! ## Mood severity range -/

/-- C24 (the code at the failing input): `anxious` is a mood that `MoodForm` lets a user log,
but `moodScale` has no key for it (it has `good`, which the form does not offer); the
`moodValue` that `fetchMoods` stores for an `anxious` entry is 0, outside the domain [1, 5]
of the Y axis of the chart. -/
theorem anxious_mood_outside_chart_domain :
    "anxious" ∈ loggableMoods ∧
    "anxious" ∉ moodScaleKeys ∧
    ("good" ∈ moodScaleKeys ∧ "good" ∉ moodFormOptions) ∧
    yAxisDomain = (1, 5) ∧
    ((fetchMoods isoTime (fun _ => 1800000000000) MoodHistoryState.initial
      (FetchOutcome.ok [⟨1, "anxious", none, some "2024-01-02T12:00:00Z", none⟩])).moods.map
        MoodEntry.moodValue) = [MoodValue.num 0] ∧
    (MoodValue.num 0).inDomain = false := by
  decide

/-- The moods that have a key in `moodScale` (happy, sad, angry, neutral, good) get a
`moodValue` between 1 and 5, inside the domain of the Y axis, and so does every stored entry
with one of these moods; among the moods that `MoodForm` offers, `anxious` is the only one
without a key. -/
theorem mood_severity_range :
    (∀ mood ∈ ["happy", "sad", "angry", "neutral", "good"],
      ∃ n : Nat, moodScaleOrZero (toLowerCase mood) = MoodValue.num n ∧ 1 ≤ n ∧ n ≤ 5 ∧
        (moodScaleOrZero (toLowerCase mood)).inDomain = true) ∧
    (∀ mood ∈ loggableMoods, mood ≠ "anxious" →
      (moodScaleOrZero (toLowerCase mood)).inDomain = true) ∧
    moodScaleOrZero (toLowerCase "anxious") = MoodValue.num 0 ∧
    (∀ (parseDate : String → Option Int) (clock : Nat → Int) (s : MoodHistoryState)
      (data : List MoodRecord),
      ∀ e ∈ (fetchMoods parseDate clock s (FetchOutcome.ok data)).moods,
        e.mood ∈ ["happy", "sad", "angry", "neutral", "good"] → e.moodValue.inDomain = true) := by
  have h1 : ∀ mood ∈ ["happy", "sad", "angry", "neutral", "good"],
      ∃ n : Nat, moodScaleOrZero (toLowerCase mood) = MoodValue.num n ∧ 1 ≤ n ∧ n ≤ 5 ∧
        (moodScaleOrZero (toLowerCase mood)).inDomain = true := by
    intro mood hmood
    simp only [List.mem_cons, List.mem_singleton, List.not_mem_nil, or_false] at hmood
    rcases hmood with rfl | rfl | rfl | rfl | rfl
    · exact ⟨5, by decide, by decide, by decide, by decide⟩
    · exact ⟨2, by decide, by decide, by decide, by decide⟩
    · exact ⟨1, by decide, by decide, by decide, by decide⟩
    · exact ⟨3, by decide, by decide, by decide, by decide⟩
    · exact ⟨4, by decide, by decide, by decide, by decide⟩
  refine ⟨h1, by decide, by decide, ?_⟩
  intro parseDate clock s data e he hmood
  obtain ⟨r, _, now, rfl⟩ := mem_convertFrom parseDate clock data e 0
    ((mem_sortByDate _ _).1 he)
  obtain ⟨n, _, _, _, h⟩ := h1 _ hmood
  exact h

theorem mood_severity_range_witness :
    "happy" ∈ loggableMoods ∧ "happy" ≠ "anxious" ∧
    (moodScaleOrZero (toLowerCase "happy")).inDomain = true :=
  ⟨by decide, by decide, mood_severity_range.2.1 "happy" (by decide) (by decide)⟩

/-! ## Controls while a request is outstanding -/

theorem bookings_controls_disabled_while_loading (s : BookingsState) (hl : s.loading = true) :
    ∀ c ∈ Bookings.controls s, c.kind.mutating = true → c.disabled = true := by
  intro c hc hmut
  simp only [Bookings.controls, List.mem_flatMap] at hc
  obtain ⟨booking, _, hmem⟩ := hc
  split at hmem
  · simp only [List.mem_cons, List.mem_singleton, List.not_mem_nil, or_false] at hmem
    rcases hmem with rfl | rfl
    · exact hl
    · exact hl
  · simp only [List.mem_cons, List.mem_singleton, List.not_mem_nil, or_false] at hmem
    rcases hmem with rfl | rfl
    · simp [ControlKind.mutating] at hmut
    · exact hl

theorem bookings_outstanding_disables (s pending : BookingsState) (confirmed : Bool)
    (h : Bookings.handleDeleteOutstanding s confirmed = some pending ∨
      saveChangesOutstanding s = some pending) :
    ∀ c ∈ Bookings.controls pending, c.kind.mutating = true → c.disabled = true := by
  have hl : pending.loading = true := by
    rcases h with h | h
    · simp only [Bookings.handleDeleteOutstanding] at h
      split at h
      · simp only [Option.some.injEq] at h
        rw [← h]
      · simp at h
    · simp only [saveChangesOutstanding] at h
      split at h
      · simp at h
      · simp only [Option.some.injEq] at h
        rw [← h]
  exact bookings_controls_disabled_while_loading pending hl

theorem therapists_outstanding_disables (s pending : TherapistsState)
    (therapistId day slot : String)
    (h : handleBookingOutstanding s therapistId day slot = some pending)
    (therapist : Therapist) :
    ∀ c ∈ Therapists.controls pending therapist, c.disabled = true := by
  have hl : pending.loading = true := by
    simp only [handleBookingOutstanding] at h
    split at h
    · simp at h
    · split at h
      · simp at h
      · simp only [Option.some.injEq] at h
        rw [← h]
  intro c hc
  simp only [Therapists.controls] at hc
  split at hc
  · rename_i d hsel
    simp only [List.mem_map, List.mem_filter] at hc
    obtain ⟨r, ⟨hr, _⟩, rfl⟩ := hc
    simp only [renderSlots, hsel] at hr
    split at hr
    · simp at hr
    · simp only [List.mem_map] at hr
      obtain ⟨slot, _, rfl⟩ := hr
      exact hl
  · simp at hc
  · simp at hc

/-- C25 (the code at the failing input): in the emergency-contacts view with two contacts, while
the DELETE of `handleDelete(1)` is outstanding the state is unchanged and "Add Contact" and both
"Delete" buttons are rendered without `disabled`; a click on the second one sends a second
DELETE. In the mood-history view, while the DELETE of `deleteMood(5)` is outstanding the
"Delete" button of the open entry is rendered without `disabled`. -/
theorem controls_enabled_while_request_outstanding :
    (EmergencyContacts.outstanding
        { ContactsState.initial with
          contacts := Body.array [⟨1, "Ann", "111", "", ""⟩, ⟨2, "Bob", "222", "", ""⟩]
          loading := false }
      = some { ContactsState.initial with
          contacts := Body.array [⟨1, "Ann", "111", "", ""⟩, ⟨2, "Bob", "222", "", ""⟩]
          loading := false } ∧
     EmergencyContacts.controls
        { ContactsState.initial with
          contacts := Body.array [⟨1, "Ann", "111", "", ""⟩, ⟨2, "Bob", "222", "", ""⟩]
          loading := false }
      = [⟨ControlKind.addContact, false⟩, ⟨ControlKind.deleteContact 1, false⟩,
          ⟨ControlKind.deleteContact 2, false⟩] ∧
     (EmergencyContacts.handleDelete
        { ContactsState.initial with
          contacts := Body.array [⟨1, "Ann", "111", "", ""⟩, ⟨2, "Bob", "222", "", ""⟩]
          loading := false }
        2 (HttpOutcome.response true none)
        (HttpOutcome.response true (some (Body.array [])))).2.requests.head?
      = some (Request.deleteContact 2)) ∧
    (deleteMoodOutstanding
        { MoodHistoryState.initial with
          moods := [⟨5, "happy", none, none, MoodValue.num 5, 200⟩]
          loading := false, openIndex := some 0 } true
      = some { MoodHistoryState.initial with
          moods := [⟨5, "happy", none, none, MoodValue.num 5, 200⟩]
          loading := false, openIndex := some 0 } ∧
     MoodHistory.controls isoTime
        { MoodHistoryState.initial with
          moods := [⟨5, "happy", none, none, MoodValue.num 5, 200⟩]
          loading := false, openIndex := some 0 }
      = [⟨ControlKind.deleteMood 5, false⟩]) := by
  decide

/-! ## Sorting loses nothing -/

theorem convertFrom_original (parseDate : String → Option Int) (clock : Nat → Int)
    (data : List MoodRecord) :
    ∀ i : Nat, (convertFrom parseDate clock i data).map MoodEntry.original
      = data.map MoodRecord.original := by
  induction data with
  | nil => intro i; rfl
  | cons r rs ih =>
    intro i
    simp only [convertFrom, List.map_cons, ih (i + 1)]
    rfl

theorem convertFrom_length (parseDate : String → Option Int) (clock : Nat → Int)
    (data : List MoodRecord) :
    ∀ i : Nat, (convertFrom parseDate clock i data).length = data.length := by
  induction data with
  | nil => intro i; rfl
  | cons r rs ih => intro i; simp [convertFrom, ih (i + 1)]

/-- C26 (as stated, refuted): the response entry `{id: 1, mood: "sad", date: "2024-01-02"}`
carries a `date` field (the one `fetchMoods` falls back to when there is no timestamp); in the
stored entry that field is not the original string but the number 1704153600000: `date` is
overwritten, not added. -/
theorem sorting_loses_nothing_counterexample :
    (⟨1, "sad", none, none, some "2024-01-02"⟩ : MoodRecord).date = some "2024-01-02" ∧
    ((fetchMoods isoTime (fun _ => 1800000000000) MoodHistoryState.initial
      (FetchOutcome.ok [⟨1, "sad", none, none, some "2024-01-02"⟩])).moods.map MoodEntry.date)
      = [1704153600000] := by
  decide

/-- C26 (amended): for every `/api/moods` response, the list `fetchMoods` stores is a
permutation of the converted response entries: it has the same length as the response, every
response entry appears exactly as many times as in the response with its fields id, mood, note
and timestamp unchanged, and each stored entry is the conversion of a response entry, which
sets the fields `moodValue` and `date` (replacing a `date` field that the response entry
carries). -/
theorem sorting_loses_nothing (parseDate : String → Option Int) (clock : Nat → Int)
    (s : MoodHistoryState) (data : List MoodRecord) :
    List.Perm (fetchMoods parseDate clock s (FetchOutcome.ok data)).moods
      (convertFrom parseDate clock 0 data) ∧
    (fetchMoods parseDate clock s (FetchOutcome.ok data)).moods.length = data.length ∧
    List.Perm ((fetchMoods parseDate clock s (FetchOutcome.ok data)).moods.map MoodEntry.original)
      (data.map MoodRecord.original) ∧
    (∀ e ∈ (fetchMoods parseDate clock s (FetchOutcome.ok data)).moods,
      ∃ r ∈ data, ∃ now : Int, e = convertMood parseDate now r ∧
        e.id = r.id ∧ e.mood = r.mood ∧ e.note = r.note ∧ e.timestamp = r.timestamp ∧
        e.moodValue = moodScaleOrZero (toLowerCase r.mood) ∧
        e.date = timeOrNow (parsedTime parseDate r) now) := by
  have hperm : List.Perm (sortByDate (convertFrom parseDate clock 0 data))
      (convertFrom parseDate clock 0 data) := List.perm_insertionSort dateLe _
  refine ⟨hperm, ?_, ?_, ?_⟩
  · show (sortByDate (convertFrom parseDate clock 0 data)).length = data.length
    rw [hperm.length_eq, convertFrom_length]
  · have h := hperm.map MoodEntry.original
    rw [convertFrom_original] at h
    exact h
  · intro e he
    obtain ⟨r, hr, now, rfl⟩ := mem_convertFrom parseDate clock data e 0
      ((mem_sortByDate _ _).1 he)
    exact ⟨r, hr, now, rfl, rfl, rfl, rfl, rfl, rfl, rfl⟩

theorem sorting_loses_nothing_witness :
    ((fetchMoods isoTime (fun _ => 1800000000000) MoodHistoryState.initial
        (FetchOutcome.ok [⟨1, "sad", none, some "2024-01-02T12:00:00Z", none⟩,
          ⟨2, "happy", some "sun", some "2020-01-01T00:00:00Z", none⟩])).moods.map
          MoodEntry.original)
      = [(2, "happy", some "sun", some "2020-01-01T00:00:00Z"),
          (1, "sad", none, some "2024-01-02T12:00:00Z")] ∧
    (fetchMoods isoTime (fun _ => 1800000000000) MoodHistoryState.initial
        (FetchOutcome.ok [⟨1, "sad", none, some "2024-01-02T12:00:00Z", none⟩,
          ⟨2, "happy", some "sun", some "2020-01-01T00:00:00Z", none⟩])).moods.length = 2 :=
  ⟨by decide,
   (sorting_loses_nothing isoTime (fun _ => 1800000000000) MoodHistoryState.initial
      [⟨1, "sad", none, some "2024-01-02T12:00:00Z", none⟩,
        ⟨2, "happy", some "sun", some "2020-01-01T00:00:00Z", none⟩]).2.1⟩

/-! ## The booked set under booking -/

theorem handleBookingResponse_bookedSlots (s : TherapistsState) (key day slot : String)
    (net : PostOutcome) :
    ((handleBookingResponse s key day slot net).bookedSlots = s.bookedSlots.spreadWith key ∧
      ∃ body, net = PostOutcome.response true (some body)) ∨
    ((handleBookingResponse s key day slot net).bookedSlots = s.bookedSlots ∧
      ∀ body, net ≠ PostOutcome.response true (some body)) := by
  cases net with
  | networkError => exact Or.inr ⟨rfl, fun _ h => by cases h⟩
  | response ok body =>
    cases ok with
    | true =>
      cases body with
      | none => exact Or.inr ⟨rfl, fun _ h => by cases h⟩
      | some b => exact Or.inl ⟨rfl, b, rfl⟩
    | false =>
      cases body with
      | none => exact Or.inr ⟨rfl, fun _ h => by cases h⟩
      | some b =>
        cases b with
        | null => exact Or.inr ⟨rfl, fun _ h => by cases h⟩
        | value error => exact Or.inr ⟨rfl, fun _ h => by cases h⟩

theorem handleBooking_bookedSlots (s : TherapistsState) (therapistId day slot : String)
    (net : PostOutcome) :
    ((handleBooking s therapistId day slot net).1.bookedSlots
        = s.bookedSlots.spreadWith (compositeKey therapistId day slot) ∧
      ∃ body, net = PostOutcome.response true (some body)) ∨
    ((handleBooking s therapistId day slot net).1.bookedSlots = s.bookedSlots ∧
      ((day = "" ∨ s.bookedSlots.has (compositeKey therapistId day slot) = true) ∨
        ∀ body, net ≠ PostOutcome.response true (some body))) := by
  by_cases hday : day = ""
  · exact Or.inr ⟨by simp [handleBooking, hday], Or.inl (Or.inl hday)⟩
  · by_cases hkey : s.bookedSlots.has (compositeKey therapistId day slot) = true
    · exact Or.inr ⟨by simp [handleBooking, hday, hkey], Or.inl (Or.inr hkey)⟩
    · have hrun : (handleBooking s therapistId day slot net).1.bookedSlots =
          (handleBookingResponse { s with loading := true }
            (compositeKey therapistId day slot) day slot net).bookedSlots := by
        simp [handleBooking, hday, hkey]
      rw [hrun]
      rcases handleBookingResponse_bookedSlots { s with loading := true }
          (compositeKey therapistId day slot) day slot net with h | h
      · exact Or.inl h
      · exact Or.inr ⟨h.1, Or.inr h.2⟩

/-- C27: for every call of `handleBooking`, whatever its outcome (rejected by a guard, OK
response, non-OK response, network error), every key present in `bookedSlots` before the call
is still present after it; a key that is present after the call and was not before is the
composite key of the call and the POST returned an OK status; on a non-OK response or a
network error, and when a guard rejects the call, `bookedSlots` is exactly unchanged. -/
theorem booked_set_only_grows (s : TherapistsState) (therapistId day slot : String)
    (net : PostOutcome) :
    (∀ key : String, s.bookedSlots.has key = true →
      (handleBooking s therapistId day slot net).1.bookedSlots.has key = true) ∧
    (∀ key : String,
      (handleBooking s therapistId day slot net).1.bookedSlots.has key = true →
      s.bookedSlots.has key = false →
      key = compositeKey therapistId day slot ∧
        ∃ body, net = PostOutcome.response true body) ∧
    ((net = PostOutcome.networkError ∨ ∃ body, net = PostOutcome.response false body) →
      (handleBooking s therapistId day slot net).1.bookedSlots = s.bookedSlots) ∧
    ((day = "" ∨ s.bookedSlots.has (compositeKey therapistId day slot) = true) →
      (handleBooking s therapistId day slot net).1.bookedSlots = s.bookedSlots) := by
  have hcases := handleBooking_bookedSlots s therapistId day slot net
  refine ⟨?_, ?_, ?_, ?_⟩
  · intro key hkey
    rcases hcases with ⟨h, _⟩ | ⟨h, _⟩
    · rw [h, BookedSlots.has_iff, BookedSlots.spreadWith]
      rcases (BookedSlots.has_iff _ _).1 hkey with h1 | h1
      · exact Or.inl (List.mem_cons_of_mem _ h1)
      · exact Or.inr h1
    · rw [h]; exact hkey
  · intro key hafter hbefore
    rcases hcases with ⟨h, body, hnet⟩ | ⟨h, _⟩
    · rw [h, BookedSlots.has_iff, BookedSlots.spreadWith] at hafter
      have hnot : ¬ (key ∈ s.bookedSlots.own ∨ key ∈ objectPrototypeKeys) := by
        intro hmem
        have := (BookedSlots.has_iff _ _).2 hmem
        rw [hbefore] at this
        exact Bool.noConfusion this
      rcases hafter with h1 | h1
      · rcases List.mem_cons.1 h1 with h2 | h2
        · exact ⟨h2, some body, hnet⟩
        · exact absurd (Or.inl h2) hnot
      · exact absurd (Or.inr h1) hnot
    · rw [h, hbefore] at hafter
      exact Bool.noConfusion hafter
  · intro hfail
    rcases hcases with ⟨_, body, hnet⟩ | ⟨h, _⟩
    · rcases hfail with h1 | ⟨b, h1⟩
      · rw [h1] at hnet; cases hnet
      · rw [h1] at hnet; cases hnet
    · exact h
  · intro hguard
    rcases hguard with hday | hkey
    · simp [handleBooking, hday]
    · by_cases hday : day = ""
      · simp [handleBooking, hday]
      · simp [handleBooking, hday, hkey]

theorem booked_set_only_grows_witness :
    ({ TherapistsState.initial with bookedSlots := ⟨["2_Friday_09:00"]⟩ } :
      TherapistsState).bookedSlots.has "2_Friday_09:00" = true ∧
    (handleBooking { TherapistsState.initial with bookedSlots := ⟨["2_Friday_09:00"]⟩ }
      "1" "Monday" "10:00"
      (PostOutcome.response true (some (JsonBody.value none)))).1.bookedSlots.has
        "2_Friday_09:00" = true ∧
    (handleBooking { TherapistsState.initial with bookedSlots := ⟨["2_Friday_09:00"]⟩ }
      "1" "Monday" "10:00"
      (PostOutcome.response false (some (JsonBody.value none)))).1.bookedSlots
      = ⟨["2_Friday_09:00"]⟩ :=
  ⟨by decide,
   (booked_set_only_grows { TherapistsState.initial with bookedSlots := ⟨["2_Friday_09:00"]⟩ }
      "1" "Monday" "10:00" (PostOutcome.response true (some (JsonBody.value none)))).1
      "2_Friday_09:00" (by decide),
   (booked_set_only_grows { TherapistsState.initial with bookedSlots := ⟨["2_Friday_09:00"]⟩ }
      "1" "Monday" "10:00" (PostOutcome.response false (some (JsonBody.value none)))).2.2.1
      (Or.inr ⟨_, rfl⟩)⟩

/-! ## Messages of the Bookings view -/

theorem fetchBookings_exclusive (s : BookingsState) (get : HttpOutcome (Body Booking)) :
    (fetchBookings s get).errorMsg = "" ∨ (fetchBookings s get).successMsg = "" := by
  unfold fetchBookings
  split
  · exact Or.inl rfl
  · exact Or.inr rfl

theorem saveChangesResponse_exclusive (s : BookingsState) (put : HttpOutcome JsonBody)
    (refetch : HttpOutcome (Body Booking)) :
    (saveChangesResponse s put refetch).1.errorMsg = "" ∨
      (saveChangesResponse s put refetch).1.successMsg = "" := by
  unfold saveChangesResponse
  split
  · exact fetchBookings_exclusive _ _
  · exact Or.inr rfl
  · exact Or.inr rfl

theorem step_exclusive (s : BookingsState) (a : BookingsAction)
    (h : s.errorMsg = "" ∨ s.successMsg = "") :
    (s.step a).errorMsg = "" ∨ (s.step a).successMsg = "" := by
  cases a with
  | fetchBookings get => exact fetchBookings_exclusive s get
  | handleDelete bookingId confirmed del refetch =>
    cases confirmed with
    | false => simpa [BookingsState.step, Bookings.handleDelete] using h
    | true =>
      cases del with
      | networkError => exact Or.inr rfl
      | response ok body =>
        cases ok with
        | true => exact fetchBookings_exclusive _ _
        | false => exact Or.inr rfl
  | startEditing booking => exact Or.inl rfl
  | cancelEditing => exact Or.inl rfl
  | saveChanges bookingId put refetch =>
    by_cases hblank : trim s.editedDay = "" ∨ trim s.editedSlot = ""
    · right
      simp [BookingsState.step, saveChanges, hblank]
    · have hrun : (s.step (BookingsAction.saveChanges bookingId put refetch)) =
          (saveChangesResponse { s with loading := true } put refetch).1 := by
        simp [BookingsState.step, saveChanges, hblank]
      rw [hrun]
      exact saveChangesResponse_exclusive _ _ _
  | setEditedDay value => exact h
  | setEditedSlot value => exact h

theorem foldl_step_exclusive (acts : List BookingsAction) :
    ∀ s : BookingsState, (s.errorMsg = "" ∨ s.successMsg = "") →
      (acts.foldl BookingsState.step s).errorMsg = "" ∨
        (acts.foldl BookingsState.step s).successMsg = "" := by
  induction acts with
  | nil => intro s h; exact h
  | cons a rest ih =>
    intro s h
    simp only [List.foldl_cons]
    exact ih (s.step a) (step_exclusive s a h)

/-- C28: in every state of the `Bookings` view reachable from its initial state by any
sequence of `fetchBookings`, `handleDelete`, `startEditing`, `cancelEditing` and `saveChanges`
steps with any outcomes (and of edits of the two inputs), `errorMsg` and `successMsg` are
never both non-empty. -/
theorem bookings_messages_exclusive (acts : List BookingsAction) :
    ¬ ((runBookings acts).errorMsg ≠ "" ∧ (runBookings acts).successMsg ≠ "") := by
  rintro ⟨h1, h2⟩
  rcases foldl_step_exclusive acts BookingsState.initial (Or.inl rfl) with h | h
  · exact h1 h
  · exact h2 h

/-! ## No day, no slots -/

/-- C29: for every therapist for whom no day is selected (the lookup is `undefined`, an
inherited value or the empty string) or whose selected day has no availability entry, the
rendered slot list is empty, so there is no Book action for that therapist; every
`handleBooking` call that a rendered Book button makes has a non-empty day and a key that is
not booked, so it takes neither guard branch (the "Please select a day first!" branch is not
reached) and sends the POST. -/
theorem no_day_no_slots (s : TherapistsState) (therapist : Therapist) :
    (selectedDay s.selectedDays therapist.id = Selected.undefined →
      renderSlots s therapist = [] ∧ bookCalls s therapist = []) ∧
    (∀ name : String, selectedDay s.selectedDays therapist.id = Selected.inherited name →
      renderSlots s therapist = [] ∧ bookCalls s therapist = []) ∧
    (∀ d : String, selectedDay s.selectedDays therapist.id = Selected.day d →
      (d = "" ∨ therapist.availability.find? (fun a => a.day == d) = none) →
      renderSlots s therapist = [] ∧ bookCalls s therapist = []) ∧
    (∀ call ∈ bookCalls s therapist,
      call.2.1 ≠ "" ∧
      s.bookedSlots.has (compositeKey call.1 call.2.1 call.2.2) = false ∧
      ∀ net : PostOutcome,
        (handleBooking s call.1 call.2.1 call.2.2 net).2
          = [Request.postBooking call.1 call.2.1 call.2.2]) := by
  refine ⟨?_, ?_, ?_, ?_⟩
  · intro h
    simp [renderSlots, bookCalls, h]
  · intro name h
    simp [renderSlots, bookCalls, h]
  · intro d h hd
    rcases hd with hd | hd
    · simp [renderSlots, bookCalls, h, hd]
    · simp [renderSlots, bookCalls, h, slotsOfDay, hd]
  · intro call hcall
    simp only [bookCalls] at hcall
    split at hcall
    · rename_i d hsel
      simp only [List.mem_map, List.mem_filter] at hcall
      obtain ⟨r, ⟨hr, hbook⟩, rfl⟩ := hcall
      simp only [renderSlots, hsel] at hr
      split at hr
      · simp at hr
      · rename_i hne
        simp only [List.mem_map] at hr
        obtain ⟨slot, _, rfl⟩ := hr
        have hfree : s.bookedSlots.has (compositeKey therapist.id d slot) = false := by
          simpa using hbook
        refine ⟨hne, hfree, ?_⟩
        intro net
        simp [handleBooking, hne, hfree]
    · simp at hcall
    · simp at hcall

theorem no_day_no_slots_witness :
    selectedDay ([] : List (String × String)) "1" = Selected.undefined ∧
    renderSlots TherapistsState.initial ⟨"1", "Dr. A", [⟨"Monday", ["10:00", "11:00"]⟩]⟩ = [] ∧
    bookCalls { TherapistsState.initial with selectedDays := [("1", "Monday")] }
        ⟨"1", "Dr. A", [⟨"Monday", ["10:00", "11:00"]⟩]⟩
      = [("1", "Monday", "10:00"), ("1", "Monday", "11:00")] :=
  ⟨by decide,
   ((no_day_no_slots TherapistsState.initial
      ⟨"1", "Dr. A", [⟨"Monday", ["10:00", "11:00"]⟩]⟩).1 (by decide)).1,
   by decide⟩

end MentalHealth
